import Mathlib

/-!
# HeliPilot: traditional-helicopter flight-state logic (`Helicopter/heli.cpp`)

A shallow embedding of `Copter::check_dynamic_flight`,
`Copter::update_heli_control_dynamics`, `Copter::heli_update_landing_swash` and
`Copter::heli_update_rotor_speed_targets`.

Conventions of the embedding:
* the persistent variables (`heli_flags.dynamic_flight`, the file-static
  `heli_dynamic_flight_counter`, `hover_roll_trim_scalar_slew`) are passed as explicit state;
* the values read from collaborating objects (motors, navigation, rangefinder, mode objects,
  scheduler) are the fields of an input record, one record per tick;
* the `int8_t` counter declared in `heli.cpp` is an `Int` with an explicit two's-complement wrap
  after each arithmetic step; integers whose declaration lies outside `heli.cpp` are the
  integers of the spec, `Int` and `Nat`;
* finite `float` values are rationals, and a `float` literal is the exact rational value of
  the binary32 number it denotes, so comparisons are exact; every `float` operation of the file
  (one product, two conversions from integers, one quotient) is rounded to 24 significant
  bits, to nearest, ties to even.
-/

namespace HeliPilot

/-! ## Enumerations declared outside `heli.cpp` -/

/-- Modelled from the spec: `AP_Motors::SpoolState` is declared in the motors library, which is
not part of the sources. `heli.cpp` names one value, `THROTTLE_UNLIMITED`; every other spool
phase (idle, spooling, ...) is `OTHER n`. -/
inductive SpoolState
  | THROTTLE_UNLIMITED
  | OTHER (n : Nat)
  deriving DecidableEq

/-- Modelled from the spec: `Mode::Number` is declared in `mode.h`, which is not part of the
sources. The constructors are the eight modes `heli.cpp` names; every other flight mode
(the ones that reach a `default:` label) is `OTHER n`. -/
inductive ModeNumber
  | ACRO
  | STABILIZE
  | DRIFT
  | SPORT
  | LAND
  | RTL
  | SMART_RTL
  | AUTO
  | OTHER (n : Nat)
  deriving DecidableEq

/-- Modelled from the spec: the value of `mode_rtl.state()`. `heli.cpp` names `RTL_Land`;
every other RTL phase is `OTHER n`. -/
inductive RTLState
  | RTL_Land
  | OTHER (n : Nat)
  deriving DecidableEq

/-- Modelled from the spec: the value of `mode_auto.mode()`. `heli.cpp` names `Auto_Land`;
every other auto submode is `OTHER n`. -/
inductive AutoMode
  | Auto_Land
  | OTHER (n : Nat)
  deriving DecidableEq

/-- Modelled from the spec: the value of `rangefinder.status_orient(ROTATION_PITCH_270)`.
`heli.cpp` names `RangeFinder_Good`; every other status is `OTHER n`. -/
inductive RangeFinderStatus
  | RangeFinder_Good
  | OTHER (n : Nat)
  deriving DecidableEq

/-! ## Machine arithmetic -/

/-- Conversion of an integer value to `int8_t` (two's complement, modulo `2^8`). -/
def wrap_int8 (x : Int) : Int := (x + 128) % 256 - 128

/-- Rounding of a rational to the nearest integer, ties to the even one. -/
def round_half_even (y : ℚ) : Int :=
  if y - ⌊y⌋ < 1 / 2 then ⌊y⌋
  else if y - ⌊y⌋ > 1 / 2 then ⌊y⌋ + 1
  else if ⌊y⌋ % 2 = 0 then ⌊y⌋
  else ⌊y⌋ + 1

/-- Rounding of a rational to binary32: the value is scaled by the power of two that brings it
into `[2^23, 2^24)`, rounded to the nearest integer, ties to even, and scaled back. The exponent
range is not bounded, which is exact for every integer of at most 64 bits and for every
quotient of two of them: neither overflows nor falls below the normal range. -/
def round_binary32 (x : ℚ) : ℚ :=
  if x < 0 then
    -((round_half_even (-x * 2 ^ (23 - Int.log 2 (-x))) : ℚ) * 2 ^ (Int.log 2 (-x) - 23))
  else if x = 0 then 0
  else (round_half_even (x * 2 ^ (23 - Int.log 2 x)) : ℚ) * 2 ^ (Int.log 2 x - 23)

/-- The macro `HELI_DYNAMIC_FLIGHT_SPEED_MIN` (cm/s), at its default. -/
def HELI_DYNAMIC_FLIGHT_SPEED_MIN : ℚ := 500

/-- The `float` literal `0.8f`: the binary32 number nearest to 0.8, `13421773 / 2^24`. -/
def THROTTLE_0_8f : ℚ := 13421773 / 16777216

/-! ## `Copter::check_dynamic_flight` -/

/-- The persistent state of the dynamic-flight estimator: `heli_flags.dynamic_flight` and the
file-static `int8_t heli_dynamic_flight_counter`. -/
structure HeliState where
  dynamic_flight : Bool
  heli_dynamic_flight_counter : Int
  deriving DecidableEq

/-- What one call of `check_dynamic_flight` reads from the rest of the vehicle. -/
structure FlightInputs where
  /-- The value of `motors->get_spool_state()`. -/
  spool_state : SpoolState
  /-- The value of `control_mode`. -/
  control_mode : ModeNumber
  /-- The value of `mode_rtl.state()`. -/
  rtl_state : RTLState
  /-- The value of `mode_auto.mode()`. -/
  auto_mode : AutoMode
  /-- The value of `position_ok()`. -/
  position_ok : Bool
  /-- The value of `inertial_nav.get_speed_xy()`, in cm/s. -/
  speed_xy : ℚ
  /-- The value of `motors->get_throttle()`. -/
  throttle : ℚ
  /-- The value of `ahrs.pitch_sensor`, in centidegrees. -/
  pitch_sensor : Int
  /-- The value of `rangefinder_state.enabled`. -/
  rangefinder_enabled : Bool
  /-- The value of `rangefinder.status_orient(ROTATION_PITCH_270)`. -/
  rangefinder_status : RangeFinderStatus
  /-- The value of `rangefinder.distance_cm_orient(ROTATION_PITCH_270)`. -/
  rangefinder_distance_cm : Nat

/-- The state at start-up: static storage is zero-initialised. -/
def HeliState.init : HeliState := ⟨false, 0⟩

/-- The condition of the first `if` of `check_dynamic_flight` (lines 27-28). -/
def dynamic_flight_reset (inp : FlightInputs) : Bool :=
  inp.spool_state != SpoolState.THROTTLE_UNLIMITED ||
  inp.control_mode == ModeNumber.LAND ||
  (inp.control_mode == ModeNumber.RTL && inp.rtl_state == RTLState.RTL_Land) ||
  (inp.control_mode == ModeNumber.AUTO && inp.auto_mode == AutoMode.Auto_Land)

/-- The local `moving` of `check_dynamic_flight` as it stands at line 53 (lines 34-51). -/
def dynamic_flight_moving (inp : FlightInputs) : Bool :=
  let moving : Bool :=
    if inp.position_ok then
      decide (inp.speed_xy ≥ HELI_DYNAMIC_FLIGHT_SPEED_MIN)
    else
      decide (inp.throttle > THROTTLE_0_8f) || decide (inp.pitch_sensor < -1500)
  if !moving && inp.rangefinder_enabled &&
      inp.rangefinder_status == RangeFinderStatus.RangeFinder_Good then
    decide (inp.rangefinder_distance_cm > 200)
  else
    moving

/-- The debounce of `check_dynamic_flight` (lines 53-71), for the value `moving` has at
line 53. -/
def dynamic_flight_debounce (s : HeliState) (moving : Bool) : HeliState :=
  if moving then
    if !s.dynamic_flight then
      let c := wrap_int8 (s.heli_dynamic_flight_counter + 1)
      if c ≥ 100 then
        { dynamic_flight := true, heli_dynamic_flight_counter := 100 }
      else
        { dynamic_flight := s.dynamic_flight, heli_dynamic_flight_counter := c }
    else
      s
  else
    if s.dynamic_flight then
      if s.heli_dynamic_flight_counter > 0 then
        { dynamic_flight := s.dynamic_flight,
          heli_dynamic_flight_counter := wrap_int8 (s.heli_dynamic_flight_counter - 1) }
      else
        { dynamic_flight := false,
          heli_dynamic_flight_counter := s.heli_dynamic_flight_counter }
    else
      s

/-- The function `Copter::check_dynamic_flight`: one 50 Hz tick of the estimator. -/
def check_dynamic_flight (s : HeliState) (inp : FlightInputs) : HeliState :=
  if dynamic_flight_reset inp then
    { dynamic_flight := false, heli_dynamic_flight_counter := 0 }
  else
    dynamic_flight_debounce s (dynamic_flight_moving inp)

/-- Successive ticks of `check_dynamic_flight`, one per input record, oldest first. -/
def run_check_dynamic_flight (s : HeliState) (ins : List FlightInputs) : HeliState :=
  ins.foldl check_dynamic_flight s

/-- A tick on which the vehicle is seen moving by inertial navigation: spool state
`THROTTLE_UNLIMITED`, no landing mode or submode, valid position fix, speed at least
`HELI_DYNAMIC_FLIGHT_SPEED_MIN`. -/
def cruising (inp : FlightInputs) : Prop :=
  inp.spool_state = SpoolState.THROTTLE_UNLIMITED ∧
  inp.control_mode ≠ ModeNumber.LAND ∧
  ¬ (inp.control_mode = ModeNumber.RTL ∧ inp.rtl_state = RTLState.RTL_Land) ∧
  ¬ (inp.control_mode = ModeNumber.AUTO ∧ inp.auto_mode = AutoMode.Auto_Land) ∧
  inp.position_ok = true ∧
  inp.speed_xy ≥ 500

/-- A Stabilize tick at 6.0 m/s with a valid position fix and no rangefinder. -/
def stabilize_6ms : FlightInputs :=
  { spool_state := SpoolState.THROTTLE_UNLIMITED
    control_mode := ModeNumber.STABILIZE
    rtl_state := RTLState.OTHER 0
    auto_mode := AutoMode.OTHER 0
    position_ok := true
    speed_xy := 600
    throttle := 1 / 2
    pitch_sensor := 0
    rangefinder_enabled := false
    rangefinder_status := RangeFinderStatus.OTHER 0
    rangefinder_distance_cm := 0 }

/-- A tick with spool state `THROTTLE_UNLIMITED`, mode Loiter-like (`OTHER 5`), a valid position
fix, zero speed and no rangefinder: neither a reset nor moving. -/
def hover_still : FlightInputs :=
  { spool_state := SpoolState.THROTTLE_UNLIMITED
    control_mode := ModeNumber.OTHER 5
    rtl_state := RTLState.OTHER 0
    auto_mode := AutoMode.OTHER 0
    position_ok := true
    speed_xy := 0
    throttle := 1 / 2
    pitch_sensor := 0
    rangefinder_enabled := false
    rangefinder_status := RangeFinderStatus.OTHER 0
    rangefinder_distance_cm := 0 }

/-- A SmartRTL tick in the landing phase of the return (`mode_rtl.state() == RTL_Land`), spool
state `THROTTLE_UNLIMITED`, valid position fix, 6.0 m/s. -/
def smart_rtl_landing : FlightInputs :=
  { spool_state := SpoolState.THROTTLE_UNLIMITED
    control_mode := ModeNumber.SMART_RTL
    rtl_state := RTLState.RTL_Land
    auto_mode := AutoMode.OTHER 0
    position_ok := true
    speed_xy := 600
    throttle := 1 / 2
    pitch_sensor := 0
    rangefinder_enabled := false
    rangefinder_status := RangeFinderStatus.OTHER 0
    rangefinder_distance_cm := 0 }

/-- The base signal of the spec (section 4.1, steps 2a and 2b): with a valid position fix, speed
at least 500 cm/s; without one, throttle above `0.8f` or pitch below -1500 centidegrees. -/
def moving_base (inp : FlightInputs) : Bool :=
  if inp.position_ok = true then
    decide (inp.speed_xy ≥ 500)
  else
    decide (inp.throttle > THROTTLE_0_8f ∨ inp.pitch_sensor < -1500)

/-- The rangefinder term of the spec (section 4.1, step 2c): rangefinder enabled, downward
status Good, distance above 200 cm. -/
def moving_rangefinder (inp : FlightInputs) : Bool :=
  decide (inp.rangefinder_enabled = true ∧
    inp.rangefinder_status = RangeFinderStatus.RangeFinder_Good ∧
    inp.rangefinder_distance_cm > 200)

/-- A Land tick at 6.0 m/s with spool state `THROTTLE_UNLIMITED`. -/
def land_6ms : FlightInputs :=
  { spool_state := SpoolState.THROTTLE_UNLIMITED
    control_mode := ModeNumber.LAND
    rtl_state := RTLState.OTHER 0
    auto_mode := AutoMode.OTHER 0
    position_ok := true
    speed_xy := 600
    throttle := 1
    pitch_sensor := -2000
    rangefinder_enabled := true
    rangefinder_status := RangeFinderStatus.RangeFinder_Good
    rangefinder_distance_cm := 1000 }

/-- A tick that is neither a hard reset nor moving. -/
def idle (inp : FlightInputs) : Prop :=
  dynamic_flight_reset inp = false ∧ dynamic_flight_moving inp = false

/-- A Loiter-like tick with the rotor spooling down, climbing fast with a good rangefinder
reading. -/
def spooling_down_fast : FlightInputs :=
  { spool_state := SpoolState.OTHER 4
    control_mode := ModeNumber.OTHER 5
    rtl_state := RTLState.OTHER 0
    auto_mode := AutoMode.OTHER 0
    position_ok := true
    speed_xy := 900
    throttle := 1
    pitch_sensor := -2000
    rangefinder_enabled := true
    rangefinder_status := RangeFinderStatus.RangeFinder_Good
    rangefinder_distance_cm := 1000 }

/-! ## `Copter::heli_update_landing_swash` -/

/-- The swash-plate travel range of the spec: `set_collective_for_landing(true)` selects
`Limited`, `set_collective_for_landing(false)` selects `Full`. -/
inductive SwashRange
  | Full
  | Limited
  deriving DecidableEq

/-- The range selected by the call `motors->set_collective_for_landing(landing)`. -/
def SwashRange.ofLanding (landing : Bool) : SwashRange :=
  if landing then SwashRange.Limited else SwashRange.Full

/-- What one call of `heli_update_landing_swash` reads. -/
structure SwashInputs where
  /-- The value of `control_mode`. -/
  control_mode : ModeNumber
  /-- The value of `mode_rtl.state()`. -/
  rtl_state : RTLState
  /-- The value of `mode_auto.mode()`. -/
  auto_mode : AutoMode
  /-- The value of `heli_flags.dynamic_flight`. -/
  dynamic_flight : Bool
  /-- The value of `ap.land_complete`. -/
  land_complete : Bool
  /-- The value of `ap.auto_armed`. -/
  auto_armed : Bool

/-- The function `Copter::heli_update_landing_swash`: the arguments of the calls of
`motors->set_collective_for_landing` it makes, in order. -/
def heli_update_landing_swash (inp : SwashInputs) : List Bool :=
  match inp.control_mode with
  | ModeNumber.ACRO | ModeNumber.STABILIZE | ModeNumber.DRIFT | ModeNumber.SPORT =>
    [false]
  | ModeNumber.LAND =>
    [true]
  | ModeNumber.RTL | ModeNumber.SMART_RTL =>
    if inp.rtl_state == RTLState.RTL_Land then
      [true]
    else
      [!inp.dynamic_flight || inp.land_complete || !inp.auto_armed]
  | ModeNumber.AUTO =>
    if inp.auto_mode == AutoMode.Auto_Land then
      [true]
    else
      [!inp.dynamic_flight || inp.land_complete || !inp.auto_armed]
  | ModeNumber.OTHER _ =>
    [!inp.dynamic_flight || inp.land_complete || !inp.auto_armed]

/-- The conditional rule of the decision table of the spec (section 4.2): `Limited` if
`(!dynamic_flight) OR land_complete OR !auto_armed`, else `Full`. -/
def swash_conditional_rule (inp : SwashInputs) : SwashRange :=
  if inp.dynamic_flight = false ∨ inp.land_complete = true ∨ inp.auto_armed = false then
    SwashRange.Limited
  else
    SwashRange.Full

/-- The decision table of the spec (section 4.2), row by row, written from the spec and not
from the code. The submode of RTL and SmartRTL is the RTL state, that of Auto the auto
submode. -/
def swash_table (inp : SwashInputs) : SwashRange :=
  if inp.control_mode = ModeNumber.ACRO ∨ inp.control_mode = ModeNumber.STABILIZE ∨
      inp.control_mode = ModeNumber.DRIFT ∨ inp.control_mode = ModeNumber.SPORT then
    SwashRange.Full
  else if inp.control_mode = ModeNumber.LAND then
    SwashRange.Limited
  else if (inp.control_mode = ModeNumber.RTL ∨ inp.control_mode = ModeNumber.SMART_RTL) ∧
      inp.rtl_state = RTLState.RTL_Land then
    SwashRange.Limited
  else if inp.control_mode = ModeNumber.AUTO ∧ inp.auto_mode = AutoMode.Auto_Land then
    SwashRange.Limited
  else
    swash_conditional_rule inp

/-! ## `Copter::update_heli_control_dynamics` -/

/-- Modelled from the spec: `constrain_int16` is defined in the maths library, which is not
part of the sources. It clamps `amt` to `[low, high]` (section 4.3: "Clamp to
`[0, loop_rate_hz]` after each update (values may transiently compute outside the range before
clamping)"). -/
def constrain_int16 (amt low high : Int) : Int :=
  if amt < low then low else if amt > high then high else amt

/-- What one call of `update_heli_control_dynamics` reads. -/
structure DynamicsInputs where
  /-- The value of `heli_flags.dynamic_flight`. -/
  dynamic_flight : Bool
  /-- The value of `ap.land_complete`. -/
  land_complete : Bool
  /-- The value of `is_zero(motors->get_desired_rotor_speed())`. -/
  desired_rotor_speed_is_zero : Bool

/-- What one call of `update_heli_control_dynamics` leaves behind. -/
structure DynamicsOutput where
  /-- The variable `hover_roll_trim_scalar_slew` after the call. -/
  hover_roll_trim_scalar_slew : Int
  /-- The argument of `attitude_control->use_leaky_i`. -/
  use_leaky_i : Bool
  /-- The argument of `attitude_control->set_hover_roll_trim_scalar`: the binary32 quotient
  `(float) hover_roll_trim_scalar_slew / (float) scheduler.get_loop_rate_hz()`. -/
  hover_roll_trim_scalar : ℚ

/-- The function `Copter::update_heli_control_dynamics`, for a scheduler whose
`get_loop_rate_hz()` returns `loop_rate_hz` and with `hover_roll_trim_scalar_slew` equal to
`slew` before the call. Both are declared outside `heli.cpp`; they are the integers of the spec
(section 3: `slew_counter: int`; section 6: `loop_rate_hz (int)`). Line 91 converts each to
`float`, divides, and rounds the quotient. -/
def update_heli_control_dynamics (loop_rate_hz : Nat) (slew : Int) (inp : DynamicsInputs) :
    DynamicsOutput :=
  let leaky := !inp.dynamic_flight
  let slew1 :=
    if inp.land_complete || inp.desired_rotor_speed_is_zero then
      slew - 1
    else
      slew + 1
  let slew2 := constrain_int16 slew1 0 loop_rate_hz
  { hover_roll_trim_scalar_slew := slew2
    use_leaky_i := leaky
    hover_roll_trim_scalar :=
      round_binary32 (round_binary32 (slew2 : ℚ) / round_binary32 (loop_rate_hz : ℚ)) }

/-- Successive ticks of `update_heli_control_dynamics`: the slew counter after the last one. -/
def run_heli_control_dynamics (loop_rate_hz : Nat) (slew : Int) (ins : List DynamicsInputs) :
    Int :=
  ins.foldl
    (fun s inp => (update_heli_control_dynamics loop_rate_hz s inp).hover_roll_trim_scalar_slew)
    slew

/-- An airborne tick with rotor power demanded. -/
def airborne_demand : DynamicsInputs :=
  { dynamic_flight := false, land_complete := false, desired_rotor_speed_is_zero := false }

/-- One tick of the count of moving ticks: the estimator state after the tick, and the number
of ticks on which `moving` was true since the latest of start-up, the last hard reset and the
last tick that began with `dynamic_flight` set. -/
def moving_ticks_step (acc : HeliState × Nat) (inp : FlightInputs) : HeliState × Nat :=
  (check_dynamic_flight acc.1 inp,
    if dynamic_flight_reset inp then 0
    else if acc.1.dynamic_flight then 0
    else if dynamic_flight_moving inp then acc.2 + 1
    else acc.2)

/-- After the ticks `ins` from start-up: the number of ticks on which `moving` was true since
the latest of start-up, the last hard reset and the last tick that began with `dynamic_flight`
set. Ticks that are not moving neither add to the count nor clear it. -/
def moving_ticks_since_clear (ins : List FlightInputs) : Nat :=
  (ins.foldl moving_ticks_step (HeliState.init, 0)).2

/-- A tick of the ramp-down branch of `update_heli_control_dynamics`: landed, or the desired
rotor speed is zero. -/
def ramp_down (inp : DynamicsInputs) : Prop :=
  inp.land_complete = true ∨ inp.desired_rotor_speed_is_zero = true

/-- A landed tick. -/
def landed_tick : DynamicsInputs :=
  { dynamic_flight := false, land_complete := true, desired_rotor_speed_is_zero := false }

/-! ## `Copter::heli_update_rotor_speed_targets` -/

/-- Modelled from the spec: the value of `motors->get_throttle_mode()`. The two constants
`heli.cpp` names are declared in the motors library, which is not part of the sources; every
other value of the `uint8_t` is `OTHER n`. -/
inductive ThrottleControlMode
  | THROTTLE_CONTROL_SINGLE
  | THROTTLE_CONTROL_TWIN
  | OTHER (n : Nat)
  deriving DecidableEq

/-- The two events `heli_update_rotor_speed_targets` hands to `Log_Write_Event`. -/
inductive LogEvent
  | DATA_ROTOR_RUNUP_COMPLETE
  | DATA_ROTOR_SPEED_BELOW_CRITICAL
  deriving DecidableEq

/-- The `float` literal `0.01f`: the binary32 number nearest to 0.01, `10737418 / 2^30`. -/
def FLOAT_0_01f : ℚ := 10737418 / 1073741824

/-- Rounding of a natural number to 24 significant bits, to nearest, ties to even: what binary32
does to the significand of an exact result. `Nat.size m` is the number of bits of `m`. -/
def round_significand (m : Nat) : Nat :=
  if m.size ≤ 24 then
    m
  else
    let s := m.size - 24
    let q := m / 2 ^ s
    let r := m % 2 ^ s
    let half := 2 ^ (s - 1)
    if r < half then q * 2 ^ s
    else if r > half then (q + 1) * 2 ^ s
    else if q % 2 = 0 then q * 2 ^ s
    else (q + 1) * 2 ^ s

/-- The expression `((float)control_in) * 0.001f` for an `int16_t` reading `control_in`. The
conversion to `float` is exact; `0.001f` is the binary32 number `8589935 / 2^33`; the exact
product `|control_in| * 8589935 / 2^33` is rounded to 24 significant bits (the values lie well
inside the normal range of binary32). -/
def control_in_to_throttle (control_in : Int) : ℚ :=
  if control_in < 0 then
    -((round_significand (control_in.natAbs * 8589935) : ℚ) / 8589934592)
  else
    (round_significand (control_in.natAbs * 8589935) : ℚ) / 8589934592

/-- What `heli_update_rotor_speed_targets` keeps from one call to the next: the flag
`ap.motor_interlock_switch`, the two rotor speed targets held by the motors object, and the
function-static `rotor_runup_complete_last`. -/
structure RotorState where
  /-- The flag `ap.motor_interlock_switch`. -/
  motor_interlock_switch : Bool
  /-- The target last given to `motors->set_desired_rotor_speed`. -/
  desired_rotor_speed : ℚ
  /-- The target last given to `motors->set_desired_rotor_speed_2`. -/
  desired_rotor_speed_2 : ℚ
  /-- The static `rotor_runup_complete_last`. -/
  rotor_runup_complete_last : Bool

/-- What one call of `heli_update_rotor_speed_targets` reads. -/
structure RotorInputs where
  /-- The value of `motors->get_throttle_mode()`. -/
  throttle_control_mode : ThrottleControlMode
  /-- The value of `RC_Channels::rc_channel(CH_8)->get_control_in()`, an `int16_t`. -/
  control_in_ch8 : Int
  /-- The value of `RC_Channels::rc_channel(CH_7)->get_control_in()`, an `int16_t`. -/
  control_in_ch7 : Int
  /-- The value of `rpm_sensor.get_rpm(0)`. -/
  rpm : ℚ
  /-- The value of `motors->rotor_runup_complete()`. -/
  rotor_runup_complete : Bool

/-- The outcome of one call of `heli_update_rotor_speed_targets`: the state it leaves and the
calls it made, each as the list of its arguments in order. -/
structure RotorTick where
  /-- The state after the call. -/
  state : RotorState
  /-- The arguments of the calls of `motors->set_desired_rotor_speed`. -/
  desired_rotor_speed_calls : List ℚ
  /-- The arguments of the calls of `motors->set_desired_rotor_speed_2`. -/
  desired_rotor_speed_2_calls : List ℚ
  /-- The arguments of the calls of `motors->set_rpm`. -/
  rpm_calls : List ℚ
  /-- The arguments of the calls of `Log_Write_Event`. -/
  events : List LogEvent

/-- The `switch` of `heli_update_rotor_speed_targets` (lines 158-186); no event is logged and
`rotor_runup_complete_last` is not touched there. -/
def rotor_speed_switch (st : RotorState) (inp : RotorInputs) : RotorTick :=
  let throttle_in := control_in_to_throttle inp.control_in_ch8
  match inp.throttle_control_mode with
  | ThrottleControlMode.THROTTLE_CONTROL_SINGLE =>
    if throttle_in > FLOAT_0_01f then
      { state := { st with motor_interlock_switch := true, desired_rotor_speed := throttle_in }
        desired_rotor_speed_calls := [throttle_in]
        desired_rotor_speed_2_calls := []
        rpm_calls := [inp.rpm]
        events := [] }
    else
      { state := { st with motor_interlock_switch := false, desired_rotor_speed := 0 }
        desired_rotor_speed_calls := [0]
        desired_rotor_speed_2_calls := []
        rpm_calls := []
        events := [] }
  | ThrottleControlMode.THROTTLE_CONTROL_TWIN =>
    let throttle2_in := control_in_to_throttle inp.control_in_ch7
    if throttle_in > FLOAT_0_01f ∨ throttle2_in > FLOAT_0_01f then
      { state := { st with motor_interlock_switch := true, desired_rotor_speed := throttle_in,
                           desired_rotor_speed_2 := throttle2_in }
        desired_rotor_speed_calls := [throttle_in]
        desired_rotor_speed_2_calls := [throttle2_in]
        rpm_calls := [inp.rpm]
        events := [] }
    else
      { state := { st with motor_interlock_switch := false, desired_rotor_speed := 0,
                           desired_rotor_speed_2 := 0 }
        desired_rotor_speed_calls := [0]
        desired_rotor_speed_2_calls := [0]
        rpm_calls := []
        events := [] }
  | ThrottleControlMode.OTHER _ =>
    { state := st
      desired_rotor_speed_calls := []
      desired_rotor_speed_2_calls := []
      rpm_calls := []
      events := [] }

/-- The run-up edge detection of `heli_update_rotor_speed_targets` (lines 188-193): the events
logged for the stored flag `last` and the flag `current` the motors report. -/
def runup_events (last current : Bool) : List LogEvent :=
  if !last && current then
    [LogEvent.DATA_ROTOR_RUNUP_COMPLETE]
  else if last && !current then
    [LogEvent.DATA_ROTOR_SPEED_BELOW_CRITICAL]
  else
    []

/-- The function `Copter::heli_update_rotor_speed_targets`: the switch, then the edge detection,
then the store to `rotor_runup_complete_last` (line 194). -/
def heli_update_rotor_speed_targets (st : RotorState) (inp : RotorInputs) : RotorTick :=
  let sw := rotor_speed_switch st inp
  { state := { sw.state with rotor_runup_complete_last := inp.rotor_runup_complete }
    desired_rotor_speed_calls := sw.desired_rotor_speed_calls
    desired_rotor_speed_2_calls := sw.desired_rotor_speed_2_calls
    rpm_calls := sw.rpm_calls
    events := runup_events st.rotor_runup_complete_last inp.rotor_runup_complete }

/-- Successive calls of `heli_update_rotor_speed_targets`: the state after the last one and the
event log, oldest event first. -/
def run_rotor_speed_targets (st : RotorState) (ins : List RotorInputs) :
    RotorState × List LogEvent :=
  ins.foldl
    (fun acc inp =>
      ((heli_update_rotor_speed_targets acc.1 inp).state,
        acc.2 ++ (heli_update_rotor_speed_targets acc.1 inp).events))
    (st, [])

/-- The event list of the spec (section 4.4, run-up edge detection) for a sequence of flag
values, `last` being the value stored before the first of them: one "run-up complete" per change
from false to true, one "below critical" per change from true to false, nothing otherwise. -/
def edge_events (last : Bool) : List Bool → List LogEvent
  | [] => []
  | current :: rest =>
    (if last = false ∧ current = true then [LogEvent.DATA_ROTOR_RUNUP_COMPLETE]
     else if last = true ∧ current = false then [LogEvent.DATA_ROTOR_SPEED_BELOW_CRITICAL]
     else []) ++ edge_events current rest

/-- A rotor state with everything off, as at start-up. -/
def RotorState.init : RotorState :=
  { motor_interlock_switch := false
    desired_rotor_speed := 0
    desired_rotor_speed_2 := 0
    rotor_runup_complete_last := false }

/-- A tick with the given mode, channel readings and run-up flag, and 1500 rpm measured. -/
def rotor_tick (mode : ThrottleControlMode) (ch8 ch7 : Int) (runup : Bool) : RotorInputs :=
  { throttle_control_mode := mode
    control_in_ch8 := ch8
    control_in_ch7 := ch7
    rpm := 1500
    rotor_runup_complete := runup }

/-! ## Theorems: `check_dynamic_flight` -/

theorem wrap_int8_of_range (x : Int) (h1 : -128 ≤ x) (h2 : x ≤ 127) : wrap_int8 x = x := by
  unfold wrap_int8
  omega

theorem run_check_dynamic_flight_append (s : HeliState) (ins : List FlightInputs)
    (inp : FlightInputs) :
    run_check_dynamic_flight s (ins ++ [inp]) =
      check_dynamic_flight (run_check_dynamic_flight s ins) inp := by
  simp [run_check_dynamic_flight, List.foldl_append]

theorem cruising_not_reset (inp : FlightInputs) (h : cruising inp) :
    dynamic_flight_reset inp = false := by
  obtain ⟨h1, h2, h3, h4, _, _⟩ := h
  simp only [dynamic_flight_reset, h1]
  by_cases hr : inp.control_mode = ModeNumber.RTL
  · simp_all
  · by_cases ha : inp.control_mode = ModeNumber.AUTO
    · simp_all
    · simp_all

theorem cruising_moving (inp : FlightInputs) (h : cruising inp) :
    dynamic_flight_moving inp = true := by
  obtain ⟨_, _, _, _, h5, h6⟩ := h
  simp [dynamic_flight_moving, h5, HELI_DYNAMIC_FLIGHT_SPEED_MIN, h6]

/-- One cruising tick below the threshold: the counter goes up by one, the flag stays clear. -/
theorem cruising_tick_below (c : Int) (inp : FlightInputs) (h : cruising inp)
    (h0 : 0 ≤ c) (h1 : c + 1 < 100) :
    check_dynamic_flight ⟨false, c⟩ inp = ⟨false, c + 1⟩ := by
  have hw : wrap_int8 (c + 1) = c + 1 := wrap_int8_of_range _ (by omega) (by omega)
  simp [check_dynamic_flight, dynamic_flight_debounce, cruising_not_reset inp h, cruising_moving inp h, hw]
  omega

/-- The cruising tick that reaches the threshold sets the flag. -/
theorem cruising_tick_reach (inp : FlightInputs) (h : cruising inp) :
    check_dynamic_flight ⟨false, 99⟩ inp = ⟨true, 100⟩ := by
  have hw : wrap_int8 100 = 100 := by decide
  simp [check_dynamic_flight, dynamic_flight_debounce, cruising_not_reset inp h, cruising_moving inp h, hw]

/-- A run of cruising ticks that stays below the threshold only counts. -/
theorem cruising_run_below (ins : List FlightInputs) (hall : ∀ inp ∈ ins, cruising inp) :
    ∀ c : Int, 0 ≤ c → c + ins.length < 100 →
      run_check_dynamic_flight ⟨false, c⟩ ins = ⟨false, c + ins.length⟩ := by
  induction ins with
  | nil => intro c _ _; simp [run_check_dynamic_flight]
  | cons inp rest ih =>
    intro c h0 h1
    have hlen : ((inp :: rest).length : Int) = (rest.length : Int) + 1 := by simp
    have hstep := cruising_tick_below c inp (hall inp (List.mem_cons_self _ _)) h0 (by omega)
    have hrest := ih (fun x hx => hall x (List.mem_cons_of_mem _ hx)) (c + 1) (by omega)
      (by omega)
    have hfold : run_check_dynamic_flight ⟨false, c⟩ (inp :: rest) =
        run_check_dynamic_flight (check_dynamic_flight ⟨false, c⟩ inp) rest := by
      simp [run_check_dynamic_flight]
    rw [hfold, hstep, hrest, hlen]
    congr 1
    omega

/-- C1 (debounce entry). From the initial state, along any 100 consecutive ticks that all have
spool state THROTTLE_UNLIMITED, no landing mode or submode, a valid position fix and a
horizontal speed of at least 500 cm/s, the state after the first `k` ticks is
`(dynamic_flight = false, counter = k)` for every `k < 100` and `(true, 100)` for `k = 100`. -/
theorem debounce_entry (ins : List FlightInputs) (hlen : ins.length = 100)
    (hall : ∀ inp ∈ ins, cruising inp) (k : Nat) (hk : k ≤ 100) :
    run_check_dynamic_flight HeliState.init (ins.take k) = ⟨decide (k = 100), (k : Int)⟩ := by
  have hbelow : ∀ j : Nat, j < 100 →
      run_check_dynamic_flight HeliState.init (ins.take j) = ⟨false, (j : Int)⟩ := by
    intro j hj
    have hl : (ins.take j).length = j := by simp [List.length_take, hlen]; omega
    have h := cruising_run_below (ins.take j)
      (fun x hx => hall x (List.mem_of_mem_take hx)) 0 (le_refl _) (by rw [hl]; omega)
    rw [hl] at h
    simpa [HeliState.init] using h
  rcases Nat.lt_or_ge k 100 with hlt | hge
  · have hne : k ≠ 100 := by omega
    simpa [hne] using hbelow k hlt
  · have hk100 : k = 100 := by omega
    subst hk100
    have h99 : 99 < ins.length := by omega
    have hsplit : ins.take 100 = ins.take 99 ++ [ins.get ⟨99, h99⟩] := by
      rw [← List.take_concat_get ins 99 h99]
      simp
    have hmem : ins.get ⟨99, h99⟩ ∈ ins := List.get_mem _ _ _
    rw [hsplit, run_check_dynamic_flight_append, hbelow 99 (by omega)]
    simpa using cruising_tick_reach _ (hall _ hmem)

theorem stabilize_6ms_cruising : cruising stabilize_6ms := by
  refine ⟨rfl, by decide, by decide, by decide, rfl, ?_⟩
  norm_num [stabilize_6ms]

/-- Witness of C1: one hundred Stabilize ticks at 6.0 m/s from the initial state leave the flag
clear after 99 ticks and set it, with the counter at 100, after the 100th. -/
theorem debounce_entry_witness :
    run_check_dynamic_flight HeliState.init (List.replicate 99 stabilize_6ms) = ⟨false, 99⟩ ∧
    run_check_dynamic_flight HeliState.init (List.replicate 100 stabilize_6ms) = ⟨true, 100⟩ := by
  have hall : ∀ inp ∈ List.replicate 100 stabilize_6ms, cruising inp := by
    intro inp h
    rw [List.eq_of_mem_replicate h]
    exact stabilize_6ms_cruising
  have h99 := debounce_entry (List.replicate 100 stabilize_6ms) (by simp) hall 99 (by decide)
  have h100 := debounce_entry (List.replicate 100 stabilize_6ms) (by simp) hall 100 (by decide)
  simp [List.take_replicate] at h99 h100
  exact ⟨h99, h100⟩

/-- C2 (hard reset). Whatever the prior state and whatever the velocity, throttle, pitch and
rangefinder inputs, a tick whose spool state is not THROTTLE_UNLIMITED, or whose mode is LAND,
or RTL in state RTL_Land, or AUTO in submode Auto_Land, leaves `dynamic_flight = false` and
the counter at 0. -/
theorem hard_reset (s : HeliState) (inp : FlightInputs)
    (h : inp.spool_state ≠ SpoolState.THROTTLE_UNLIMITED ∨
      inp.control_mode = ModeNumber.LAND ∨
      (inp.control_mode = ModeNumber.RTL ∧ inp.rtl_state = RTLState.RTL_Land) ∨
      (inp.control_mode = ModeNumber.AUTO ∧ inp.auto_mode = AutoMode.Auto_Land)) :
    check_dynamic_flight s inp = ⟨false, 0⟩ := by
  have hr : dynamic_flight_reset inp = true := by
    unfold dynamic_flight_reset
    rcases h with h | h | ⟨h1, h2⟩ | ⟨h1, h2⟩
    · simp [h]
    · simp [h]
    · simp [h1, h2]
    · simp [h1, h2]
  simp [check_dynamic_flight, hr]

/-- Witness of C2: from `(true, 100)` a Land tick, taken at 6.0 m/s with full throttle and a
good rangefinder reading of 10 m, gives `(false, 0)`. -/
theorem hard_reset_witness : check_dynamic_flight ⟨true, 100⟩ land_6ms = ⟨false, 0⟩ :=
  hard_reset ⟨true, 100⟩ land_6ms (Or.inr (Or.inl rfl))

theorem smart_rtl_landing_cruising : cruising smart_rtl_landing := by
  refine ⟨rfl, by decide, by decide, by decide, rfl, ?_⟩
  norm_num [smart_rtl_landing]

/-- C3, the code at the failing input. In SMART_RTL with `mode_rtl.state() == RTL_Land` the
estimator is not reset: from `(true, 100)` the state stays `(true, 100)`, and from `(false, 99)`
the flag is even set, on a tick for which the swash selector already takes the landing branch. -/
theorem smart_rtl_landing_not_reset :
    check_dynamic_flight ⟨true, 100⟩ smart_rtl_landing = ⟨true, 100⟩ ∧
    check_dynamic_flight ⟨false, 99⟩ smart_rtl_landing = ⟨true, 100⟩ ∧
    heli_update_landing_swash
      ⟨smart_rtl_landing.control_mode, smart_rtl_landing.rtl_state,
        smart_rtl_landing.auto_mode, true, false, true⟩ = [true] := by
  refine ⟨?_, cruising_tick_reach _ smart_rtl_landing_cruising, by decide⟩
  simp [check_dynamic_flight, dynamic_flight_debounce,
    cruising_not_reset _ smart_rtl_landing_cruising,
    cruising_moving _ smart_rtl_landing_cruising]

/-- One tick keeps the counter within `[0, 100]`. -/
theorem check_dynamic_flight_bounds (s : HeliState) (inp : FlightInputs)
    (h0 : 0 ≤ s.heli_dynamic_flight_counter) (h1 : s.heli_dynamic_flight_counter ≤ 100) :
    0 ≤ (check_dynamic_flight s inp).heli_dynamic_flight_counter ∧
    (check_dynamic_flight s inp).heli_dynamic_flight_counter ≤ 100 := by
  have hup : wrap_int8 (s.heli_dynamic_flight_counter + 1) = s.heli_dynamic_flight_counter + 1 :=
    wrap_int8_of_range _ (by omega) (by omega)
  have hdn : wrap_int8 (s.heli_dynamic_flight_counter - 1) = s.heli_dynamic_flight_counter - 1 :=
    wrap_int8_of_range _ (by omega) (by omega)
  simp only [check_dynamic_flight, dynamic_flight_debounce, hup, hdn]
  split_ifs <;> constructor <;> (try simp) <;> omega

/-- Every state reached from the initial one has its counter within `[0, 100]`. -/
theorem run_check_dynamic_flight_bounds (ins : List FlightInputs) :
    0 ≤ (run_check_dynamic_flight HeliState.init ins).heli_dynamic_flight_counter ∧
    (run_check_dynamic_flight HeliState.init ins).heli_dynamic_flight_counter ≤ 100 := by
  induction ins using List.reverseRecOn with
  | nil => simp [run_check_dynamic_flight, HeliState.init]
  | append_singleton rest inp ih =>
    rw [run_check_dynamic_flight_append]
    exact check_dynamic_flight_bounds _ inp ih.1 ih.2

/-- C4 (counter bound). After any finite sequence of ticks from the initial state, with
arbitrary inputs, the counter lies in `[0, 100]`; hence the next increment or decrement stays
inside the range of `int8_t` and the conversion back to `int8_t` does not change it. -/
theorem counter_bound (ins : List FlightInputs) :
    0 ≤ (run_check_dynamic_flight HeliState.init ins).heli_dynamic_flight_counter ∧
    (run_check_dynamic_flight HeliState.init ins).heli_dynamic_flight_counter ≤ 100 ∧
    wrap_int8 ((run_check_dynamic_flight HeliState.init ins).heli_dynamic_flight_counter + 1) =
      (run_check_dynamic_flight HeliState.init ins).heli_dynamic_flight_counter + 1 ∧
    wrap_int8 ((run_check_dynamic_flight HeliState.init ins).heli_dynamic_flight_counter - 1) =
      (run_check_dynamic_flight HeliState.init ins).heli_dynamic_flight_counter - 1 := by
  have h := run_check_dynamic_flight_bounds ins
  exact ⟨h.1, h.2, wrap_int8_of_range _ (by omega) (by omega),
    wrap_int8_of_range _ (by omega) (by omega)⟩

/-- C5 (transition rule). On a tick taken in a state reached from the initial one, either
`dynamic_flight` keeps its value, or it goes from false to true and the counter is then 100, or
it goes from true to false and the counter is then 0. -/
theorem transition_rule (ins : List FlightInputs) (inp : FlightInputs) :
    (check_dynamic_flight (run_check_dynamic_flight HeliState.init ins) inp).dynamic_flight =
      (run_check_dynamic_flight HeliState.init ins).dynamic_flight ∨
    ((run_check_dynamic_flight HeliState.init ins).dynamic_flight = false ∧
      (check_dynamic_flight (run_check_dynamic_flight HeliState.init ins) inp).dynamic_flight
        = true ∧
      (check_dynamic_flight
        (run_check_dynamic_flight HeliState.init ins) inp).heli_dynamic_flight_counter = 100) ∨
    ((run_check_dynamic_flight HeliState.init ins).dynamic_flight = true ∧
      (check_dynamic_flight (run_check_dynamic_flight HeliState.init ins) inp).dynamic_flight
        = false ∧
      (check_dynamic_flight
        (run_check_dynamic_flight HeliState.init ins) inp).heli_dynamic_flight_counter = 0) := by
  have hb := run_check_dynamic_flight_bounds ins
  generalize run_check_dynamic_flight HeliState.init ins = s at hb ⊢
  obtain ⟨df, c⟩ := s
  simp only at hb
  simp only [check_dynamic_flight, dynamic_flight_debounce]
  cases df <;> split_ifs <;> simp_all
  omega

theorem run_check_dynamic_flight_cons (s : HeliState) (inp : FlightInputs)
    (rest : List FlightInputs) :
    run_check_dynamic_flight s (inp :: rest) =
      run_check_dynamic_flight (check_dynamic_flight s inp) rest := by
  simp [run_check_dynamic_flight]

/-- One idle tick with the flag set and the counter positive only counts down. -/
theorem idle_tick_above (c : Int) (inp : FlightInputs) (h : idle inp)
    (h0 : 0 < c) (h1 : c ≤ 100) :
    check_dynamic_flight ⟨true, c⟩ inp = ⟨true, c - 1⟩ := by
  have hw : wrap_int8 (c - 1) = c - 1 := wrap_int8_of_range _ (by omega) (by omega)
  simp [check_dynamic_flight, dynamic_flight_debounce, h.1, h.2, hw, h0]

/-- An idle tick with the flag set and the counter at 0 clears the flag. -/
theorem idle_tick_zero (inp : FlightInputs) (h : idle inp) :
    check_dynamic_flight ⟨true, 0⟩ inp = ⟨false, 0⟩ := by
  simp [check_dynamic_flight, dynamic_flight_debounce, h.1, h.2]

/-- A run of idle ticks no longer than the counter only counts down. -/
theorem idle_run_above (ins : List FlightInputs) (hall : ∀ inp ∈ ins, idle inp) :
    ∀ c : Int, (ins.length : Int) ≤ c → c ≤ 100 →
      run_check_dynamic_flight ⟨true, c⟩ ins = ⟨true, c - ins.length⟩ := by
  induction ins with
  | nil => intro c _ _; simp [run_check_dynamic_flight]
  | cons inp rest ih =>
    intro c h0 h1
    have hlen : ((inp :: rest).length : Int) = (rest.length : Int) + 1 := by simp
    have hstep := idle_tick_above c inp (hall inp (List.mem_cons_self _ _)) (by omega) h1
    have hrest := ih (fun x hx => hall x (List.mem_cons_of_mem _ hx)) (c - 1) (by omega)
      (by omega)
    rw [run_check_dynamic_flight_cons, hstep, hrest, hlen]
    congr 1
    omega

theorem hover_still_idle : idle hover_still := by
  constructor
  · decide
  · simp [dynamic_flight_moving, hover_still, HELI_DYNAMIC_FLIGHT_SPEED_MIN]

/-- C6, counterexample to the claim as stated. From `(true, 100)`, along non-reset ticks that
are not moving, the tick that brings the counter to 0 leaves the flag set: the state is
`(true, 1)` after 99 ticks and `(true, 0)` after 100 ticks, so `dynamic_flight` is still true
after 100 ticks; it is cleared by the 101st tick. -/
theorem debounce_exit_one_tick_late :
    run_check_dynamic_flight ⟨true, 100⟩ (List.replicate 99 hover_still) = ⟨true, 1⟩ ∧
    check_dynamic_flight ⟨true, 1⟩ hover_still = ⟨true, 0⟩ ∧
    run_check_dynamic_flight ⟨true, 100⟩ (List.replicate 100 hover_still) = ⟨true, 0⟩ ∧
    run_check_dynamic_flight ⟨true, 100⟩ (List.replicate 101 hover_still) = ⟨false, 0⟩ := by
  have hall : ∀ n, ∀ inp ∈ List.replicate n hover_still, idle inp := by
    intro n inp h
    rw [List.eq_of_mem_replicate h]
    exact hover_still_idle
  have h99 := idle_run_above (List.replicate 99 hover_still) (hall 99) 100 (by simp) (by simp)
  have h100 := idle_run_above (List.replicate 100 hover_still) (hall 100) 100 (by simp)
    (by simp)
  have h1 := idle_tick_above 1 hover_still hover_still_idle (by decide) (by decide)
  have h101 : List.replicate 101 hover_still = List.replicate 100 hover_still ++ [hover_still] :=
    List.replicate_succ' 100 hover_still
  simp only [List.length_replicate, Nat.cast_ofNat, Int.reduceSub] at h99 h100 h1
  refine ⟨h99, h1, h100, ?_⟩
  rw [h101, run_check_dynamic_flight_append, h100]
  exact idle_tick_zero _ hover_still_idle

/-- C6 as amended (debounce exit). On a non-reset tick that is not moving, with
`dynamic_flight` set, the counter is decremented while it is positive and the flag is kept; the
flag is cleared by the first such tick that finds the counter at 0. Hence from `(true, 100)`,
along 101 consecutive non-reset ticks that are not moving, the state after `k` ticks is
`(true, 100 - k)` for every `k <= 100` and `(false, 0)` for `k = 101`. -/
theorem debounce_exit (ins : List FlightInputs) (hlen : ins.length = 101)
    (hall : ∀ inp ∈ ins, idle inp) (k : Nat) (hk : k ≤ 101) :
    (∀ inp ∈ ins, ∀ c : Int, 0 < c → c ≤ 100 →
      check_dynamic_flight ⟨true, c⟩ inp = ⟨true, c - 1⟩) ∧
    (∀ inp ∈ ins, check_dynamic_flight ⟨true, 0⟩ inp = ⟨false, 0⟩) ∧
    run_check_dynamic_flight ⟨true, 100⟩ (ins.take k) =
      (if k ≤ 100 then ⟨true, 100 - (k : Int)⟩ else ⟨false, 0⟩) := by
  have habove : ∀ j : Nat, j ≤ 100 →
      run_check_dynamic_flight ⟨true, 100⟩ (ins.take j) = ⟨true, 100 - (j : Int)⟩ := by
    intro j hj
    have hl : (ins.take j).length = j := by simp [List.length_take, hlen]; omega
    have h := idle_run_above (ins.take j)
      (fun x hx => hall x (List.mem_of_mem_take hx)) 100 (by rw [hl]; omega) (le_refl _)
    rw [hl] at h
    exact h
  refine ⟨fun inp hinp c h0 h1 => idle_tick_above c inp (hall inp hinp) h0 h1,
    fun inp hinp => idle_tick_zero inp (hall inp hinp), ?_⟩
  rcases Nat.lt_or_ge k 101 with hlt | hge
  · have hle : k ≤ 100 := by omega
    rw [if_pos hle]
    exact habove k hle
  · have hk101 : k = 101 := by omega
    subst hk101
    have h100 : 100 < ins.length := by omega
    have hsplit : ins.take 101 = ins.take 100 ++ [ins.get ⟨100, h100⟩] := by
      rw [← List.take_concat_get ins 100 h100]
      simp
    have hmem : ins.get ⟨100, h100⟩ ∈ ins := List.get_mem _ _ _
    rw [if_neg (by decide), hsplit, run_check_dynamic_flight_append, habove 100 (le_refl _)]
    simpa using idle_tick_zero _ (hall _ hmem)

/-- Witness of C6 as amended: along 101 ticks at rest from `(true, 100)` the flag is still set
after 100 ticks, with the counter at 0, and clear after 101. -/
theorem debounce_exit_witness :
    run_check_dynamic_flight ⟨true, 100⟩ ((List.replicate 101 hover_still).take 100) =
      ⟨true, 0⟩ ∧
    run_check_dynamic_flight ⟨true, 100⟩ ((List.replicate 101 hover_still).take 101) =
      ⟨false, 0⟩ := by
  have hall : ∀ inp ∈ List.replicate 101 hover_still, idle inp := by
    intro inp h
    rw [List.eq_of_mem_replicate h]
    exact hover_still_idle
  have h100 := (debounce_exit (List.replicate 101 hover_still) (by simp) hall 100
    (by decide)).2.2
  have h101 := (debounce_exit (List.replicate 101 hover_still) (by simp) hall 101
    (by decide)).2.2
  rw [if_pos (by decide)] at h100
  rw [if_neg (by decide)] at h101
  refine ⟨?_, h101⟩
  rw [h100]
  norm_num

/-- C7 (moving signal). The value of `moving` that reaches the debounce is
`base OR (rangefinder enabled AND status Good AND distance > 200 cm)`, where `base` is
`speed >= 500` with a valid position fix and `throttle > 0.8f OR pitch_sensor < -1500` without:
a non-reset tick is the debounce applied to that value. The rangefinder term never turns a true
`base` into false, and with a valid fix the value does not depend on throttle or pitch. -/
theorem moving_signal (s : HeliState) (inp : FlightInputs) :
    dynamic_flight_moving inp = (moving_base inp || moving_rangefinder inp) ∧
    check_dynamic_flight s inp =
      (if dynamic_flight_reset inp = true then ⟨false, 0⟩
       else dynamic_flight_debounce s (moving_base inp || moving_rangefinder inp)) ∧
    (moving_base inp && !dynamic_flight_moving inp) = false ∧
    ∀ (t : ℚ) (p : Int),
      dynamic_flight_moving { inp with position_ok := true, throttle := t, pitch_sensor := p } =
        dynamic_flight_moving { inp with position_ok := true } := by
  have hm : dynamic_flight_moving inp = (moving_base inp || moving_rangefinder inp) := by
    unfold dynamic_flight_moving moving_base moving_rangefinder HELI_DYNAMIC_FLIGHT_SPEED_MIN
    cases hp : inp.position_ok <;> cases he : inp.rangefinder_enabled <;>
      by_cases hs : inp.rangefinder_status = RangeFinderStatus.RangeFinder_Good <;>
      by_cases hd : inp.rangefinder_distance_cm > 200 <;>
      by_cases hv : inp.speed_xy ≥ 500 <;>
      by_cases ht : inp.throttle > THROTTLE_0_8f <;>
      by_cases hq : inp.pitch_sensor < -1500 <;>
      simp [hs, hd, hv, ht, hq]
  refine ⟨hm, ?_, ?_, ?_⟩
  · simp [check_dynamic_flight, hm]
  · rw [hm]
    cases moving_base inp <;> simp
  · intro t p
    simp [dynamic_flight_moving]

/-! ## Theorems: `heli_update_landing_swash` -/

/-- C8 (landing swash invariance). In LAND, in AUTO with submode Auto_Land, and in RTL or
SMART_RTL with RTL state RTL_Land, the selector makes the single call
`set_collective_for_landing(true)`, whatever `dynamic_flight`, `land_complete` and `auto_armed`
are. -/
theorem landing_swash_limited (inp : SwashInputs)
    (h : inp.control_mode = ModeNumber.LAND ∨
      (inp.control_mode = ModeNumber.AUTO ∧ inp.auto_mode = AutoMode.Auto_Land) ∨
      ((inp.control_mode = ModeNumber.RTL ∨ inp.control_mode = ModeNumber.SMART_RTL) ∧
        inp.rtl_state = RTLState.RTL_Land)) :
    heli_update_landing_swash inp = [true] ∧
    (heli_update_landing_swash inp).map SwashRange.ofLanding = [SwashRange.Limited] := by
  have hcalls : heli_update_landing_swash inp = [true] := by
    unfold heli_update_landing_swash
    rcases h with h | ⟨h1, h2⟩ | ⟨h1 | h1, h2⟩
    · simp [h]
    · simp [h1, h2]
    · simp [h1, h2]
    · simp [h1, h2]
  rw [hcalls]
  exact ⟨rfl, rfl⟩

/-- Witness of C8: AUTO with submode Auto_Land, in dynamic flight, not landed, auto-armed (the
combination for which the conditional rule alone would give Full). -/
theorem landing_swash_limited_witness :
    heli_update_landing_swash
      ⟨ModeNumber.AUTO, RTLState.OTHER 0, AutoMode.Auto_Land, true, false, true⟩ = [true] ∧
    (heli_update_landing_swash
      ⟨ModeNumber.AUTO, RTLState.OTHER 0, AutoMode.Auto_Land, true, false, true⟩).map
        SwashRange.ofLanding = [SwashRange.Limited] :=
  landing_swash_limited
    ⟨ModeNumber.AUTO, RTLState.OTHER 0, AutoMode.Auto_Land, true, false, true⟩
    (Or.inr (Or.inl ⟨rfl, rfl⟩))

/-- C9 (swash decision table). For every input the selector makes exactly one call of
`set_collective_for_landing`, and the range it selects is the one of the table of the spec:
Full in Acro, Stabilize, Drift and Sport; in every case that is neither manual nor landing,
Limited exactly when `!dynamic_flight OR land_complete OR !auto_armed`. Outside the four manual
modes Full is selected only with `dynamic_flight` true, `land_complete` false and `auto_armed`
true. -/
theorem swash_decision_table (inp : SwashInputs) :
    (heli_update_landing_swash inp).length = 1 ∧
    (heli_update_landing_swash inp).map SwashRange.ofLanding = [swash_table inp] ∧
    ((heli_update_landing_swash inp).map SwashRange.ofLanding ≠ [SwashRange.Full] ∨
      inp.control_mode = ModeNumber.ACRO ∨ inp.control_mode = ModeNumber.STABILIZE ∨
      inp.control_mode = ModeNumber.DRIFT ∨ inp.control_mode = ModeNumber.SPORT ∨
      (inp.dynamic_flight = true ∧ inp.land_complete = false ∧ inp.auto_armed = true)) := by
  obtain ⟨m, r, a, df, lc, aa⟩ := inp
  cases m <;> cases r <;> cases a <;> cases df <;> cases lc <;> cases aa <;>
    simp [heli_update_landing_swash, swash_table, swash_conditional_rule, SwashRange.ofLanding]

/-! ## Theorems: binary32 rounding -/

theorem round_half_even_bounds (y : ℚ) :
    ⌊y⌋ ≤ round_half_even y ∧ round_half_even y ≤ ⌊y⌋ + 1 := by
  unfold round_half_even
  split_ifs <;> omega

theorem round_half_even_int (k : Int) : round_half_even (k : ℚ) = k := by
  simp [round_half_even]

theorem round_half_even_mono (y z : ℚ) (h : y ≤ z) : round_half_even y ≤ round_half_even z := by
  have hf : ⌊y⌋ ≤ ⌊z⌋ := Int.floor_mono h
  rcases lt_or_eq_of_le hf with hlt | heq
  · have h1 := (round_half_even_bounds y).2
    have h2 := (round_half_even_bounds z).1
    omega
  · unfold round_half_even
    rw [heq]
    have hfr : y - ⌊z⌋ ≤ z - ⌊z⌋ := by linarith
    split_ifs <;> first | omega | (exfalso; linarith)

theorem scaled_bounds (x : ℚ) (hx : 0 < x) :
    (2 : ℚ) ^ (23 : ℕ) ≤ x * 2 ^ (23 - Int.log 2 x) ∧
    x * 2 ^ (23 - Int.log 2 x) < (2 : ℚ) ^ (24 : ℕ) := by
  have h1 : ((2 : ℕ) : ℚ) ^ Int.log 2 x ≤ x := Int.zpow_log_le_self (by decide) hx
  have h2 : x < ((2 : ℕ) : ℚ) ^ (Int.log 2 x + 1) := Int.lt_zpow_succ_log_self (by decide) x
  simp only [Nat.cast_ofNat] at h1 h2
  have hp : (0 : ℚ) < 2 ^ (23 - Int.log 2 x) := by positivity
  constructor
  · calc (2 : ℚ) ^ (23 : ℕ) = 2 ^ Int.log 2 x * 2 ^ (23 - Int.log 2 x) := by
          rw [← zpow_add₀ (by norm_num : (2 : ℚ) ≠ 0)]
          norm_num
      _ ≤ x * 2 ^ (23 - Int.log 2 x) := mul_le_mul_of_nonneg_right h1 hp.le
  · calc x * 2 ^ (23 - Int.log 2 x) < 2 ^ (Int.log 2 x + 1) * 2 ^ (23 - Int.log 2 x) :=
          mul_lt_mul_of_pos_right h2 hp
      _ = (2 : ℚ) ^ (24 : ℕ) := by
          rw [← zpow_add₀ (by norm_num : (2 : ℚ) ≠ 0)]
          have : Int.log 2 x + 1 + (23 - Int.log 2 x) = 24 := by ring
          rw [this]
          norm_num

theorem round_binary32_pos (x : ℚ) (hx : 0 < x) :
    round_binary32 x =
      (round_half_even (x * 2 ^ (23 - Int.log 2 x)) : ℚ) * 2 ^ (Int.log 2 x - 23) := by
  unfold round_binary32
  rw [if_neg (not_lt.mpr hx.le), if_neg hx.ne']

theorem round_binary32_zero : round_binary32 0 = 0 := by
  simp [round_binary32]

theorem significand_bounds (x : ℚ) (hx : 0 < x) :
    8388608 ≤ round_half_even (x * 2 ^ (23 - Int.log 2 x)) ∧
    round_half_even (x * 2 ^ (23 - Int.log 2 x)) ≤ 16777216 := by
  have hs := scaled_bounds x hx
  have hb := round_half_even_bounds (x * 2 ^ (23 - Int.log 2 x))
  have h1 : (8388608 : Int) ≤ ⌊x * 2 ^ (23 - Int.log 2 x)⌋ := by
    apply Int.le_floor.mpr
    have := hs.1
    norm_num at this ⊢
    exact this
  have h2 : ⌊x * 2 ^ (23 - Int.log 2 x)⌋ < (16777216 : Int) := by
    apply Int.floor_lt.mpr
    have := hs.2
    norm_num at this ⊢
    exact this
  omega

theorem round_binary32_bounds (x : ℚ) (hx : 0 < x) :
    (2 : ℚ) ^ Int.log 2 x ≤ round_binary32 x ∧
    round_binary32 x ≤ (2 : ℚ) ^ (Int.log 2 x + 1) := by
  have hn := significand_bounds x hx
  have hp : (0 : ℚ) < 2 ^ (Int.log 2 x - 23) := by positivity
  have h1 : ((8388608 : Int) : ℚ) ≤ (round_half_even (x * 2 ^ (23 - Int.log 2 x)) : ℚ) := by
    exact_mod_cast hn.1
  have h2 : (round_half_even (x * 2 ^ (23 - Int.log 2 x)) : ℚ) ≤ ((16777216 : Int) : ℚ) := by
    exact_mod_cast hn.2
  rw [round_binary32_pos x hx]
  constructor
  · calc (2 : ℚ) ^ Int.log 2 x = (2 : ℚ) ^ (23 : ℤ) * 2 ^ (Int.log 2 x - 23) := by
          rw [← zpow_add₀ (by norm_num : (2 : ℚ) ≠ 0)]
          congr 1
          ring
      _ = ((8388608 : Int) : ℚ) * 2 ^ (Int.log 2 x - 23) := by norm_num
      _ ≤ _ := mul_le_mul_of_nonneg_right h1 hp.le
  · calc (round_half_even (x * 2 ^ (23 - Int.log 2 x)) : ℚ) * 2 ^ (Int.log 2 x - 23)
        ≤ ((16777216 : Int) : ℚ) * 2 ^ (Int.log 2 x - 23) :=
          mul_le_mul_of_nonneg_right h2 hp.le
      _ = (2 : ℚ) ^ (24 : ℤ) * 2 ^ (Int.log 2 x - 23) := by norm_num
      _ = (2 : ℚ) ^ (Int.log 2 x + 1) := by
          rw [← zpow_add₀ (by norm_num : (2 : ℚ) ≠ 0)]
          congr 1
          ring

theorem round_binary32_pos_of_pos (x : ℚ) (hx : 0 < x) : 0 < round_binary32 x :=
  lt_of_lt_of_le (by positivity) (round_binary32_bounds x hx).1

theorem round_binary32_mono_pos (x y : ℚ) (hx : 0 < x) (h : x ≤ y) :
    round_binary32 x ≤ round_binary32 y := by
  have hy : 0 < y := lt_of_lt_of_le hx h
  have he : Int.log 2 x ≤ Int.log 2 y := Int.log_mono_right hx h
  rcases lt_or_eq_of_le he with hlt | heq
  · calc round_binary32 x ≤ (2 : ℚ) ^ (Int.log 2 x + 1) := (round_binary32_bounds x hx).2
      _ ≤ (2 : ℚ) ^ Int.log 2 y := zpow_le_zpow_right₀ (by norm_num) (by omega)
      _ ≤ round_binary32 y := (round_binary32_bounds y hy).1
  · rw [round_binary32_pos x hx, round_binary32_pos y hy, heq]
    have hp : (0 : ℚ) < 2 ^ (23 - Int.log 2 y) := by positivity
    have hq : (0 : ℚ) < 2 ^ (Int.log 2 y - 23) := by positivity
    have hs : x * 2 ^ (23 - Int.log 2 y) ≤ y * 2 ^ (23 - Int.log 2 y) :=
      mul_le_mul_of_nonneg_right h hp.le
    have hr := round_half_even_mono _ _ hs
    have hr' : (round_half_even (x * 2 ^ (23 - Int.log 2 y)) : ℚ) ≤
        (round_half_even (y * 2 ^ (23 - Int.log 2 y)) : ℚ) := by exact_mod_cast hr
    exact mul_le_mul_of_nonneg_right hr' hq.le

theorem round_binary32_mono (x y : ℚ) (hx : 0 ≤ x) (h : x ≤ y) :
    round_binary32 x ≤ round_binary32 y := by
  rcases lt_or_eq_of_le hx with hpos | hzero
  · exact round_binary32_mono_pos x y hpos h
  · rw [← hzero, round_binary32_zero]
    rcases lt_or_eq_of_le (hzero ▸ h : (0 : ℚ) ≤ y) with hy | hy
    · exact (round_binary32_pos_of_pos y hy).le
    · rw [← hy, round_binary32_zero]

/-- A value whose scaled significand is an integer is not changed by the rounding. -/
theorem round_binary32_exact (x : ℚ) (hx : 0 < x) (e : Int) (k : Int)
    (h1 : (2 : ℚ) ^ e ≤ x) (h2 : x < (2 : ℚ) ^ (e + 1)) (hk : x * 2 ^ (23 - e) = (k : ℚ)) :
    round_binary32 x = x := by
  have hlog : Int.log 2 x = e := by
    have ha : e ≤ Int.log 2 x := (Int.zpow_le_iff_le_log (by decide) hx).mp (by simpa using h1)
    have hb : Int.log 2 x < e + 1 := (Int.lt_zpow_iff_log_lt (by decide) hx).mp (by simpa using h2)
    omega
  rw [round_binary32_pos x hx, hlog, hk, round_half_even_int, ← hk, mul_assoc,
    ← zpow_add₀ (by norm_num : (2 : ℚ) ≠ 0)]
  have : 23 - e + (e - 23) = 0 := by ring
  rw [this]
  simp

theorem round_binary32_one : round_binary32 1 = 1 :=
  round_binary32_exact 1 (by norm_num) 0 8388608 (by norm_num) (by norm_num) (by norm_num)

/-- A value with given exponent: the rounding in terms of the scaled significand. -/
theorem round_binary32_of_exponent (x : ℚ) (hx : 0 < x) (e : Int)
    (h1 : (2 : ℚ) ^ e ≤ x) (h2 : x < (2 : ℚ) ^ (e + 1)) :
    round_binary32 x = (round_half_even (x * 2 ^ (23 - e)) : ℚ) * 2 ^ (e - 23) := by
  have hlog : Int.log 2 x = e := by
    have ha : e ≤ Int.log 2 x := (Int.zpow_le_iff_le_log (by decide) hx).mp (by simpa using h1)
    have hb : Int.log 2 x < e + 1 := (Int.lt_zpow_iff_log_lt (by decide) hx).mp (by simpa using h2)
    omega
  rw [round_binary32_pos x hx, hlog]

theorem round_half_even_of_floor (y : ℚ) (f : Int) (h1 : (f : ℚ) ≤ y) (h2 : y < (f : ℚ) + 1) :
    round_half_even y =
      if y - f < 1 / 2 then f else if y - f > 1 / 2 then f + 1
      else if f % 2 = 0 then f else f + 1 := by
  have hf : ⌊y⌋ = f := Int.floor_eq_iff.mpr ⟨h1, h2⟩
  unfold round_half_even
  rw [hf]

theorem round_binary32_nonneg (x : ℚ) (hx : 0 ≤ x) : 0 ≤ round_binary32 x := by
  rcases lt_or_eq_of_le hx with hpos | hzero
  · exact (round_binary32_pos_of_pos x hpos).le
  · rw [← hzero, round_binary32_zero]

/-- A positive integer of at most 24 bits, or `2^24` itself, converts to `float` exactly. -/
theorem round_binary32_natCast (m : Nat) (h0 : 0 < m) (h : m ≤ 16777216) :
    round_binary32 (m : ℚ) = (m : ℚ) := by
  have hx : (0 : ℚ) < (m : ℚ) := by exact_mod_cast h0
  have h1 : ((2 : ℕ) : ℚ) ^ Int.log 2 (m : ℚ) ≤ (m : ℚ) := Int.zpow_log_le_self (by decide) hx
  have h2 : (m : ℚ) < ((2 : ℕ) : ℚ) ^ (Int.log 2 (m : ℚ) + 1) :=
    Int.lt_zpow_succ_log_self (by decide) _
  simp only [Nat.cast_ofNat] at h1 h2
  have hle : (m : ℚ) ≤ 16777216 := by exact_mod_cast h
  have he : Int.log 2 (m : ℚ) < 25 :=
    (Int.lt_zpow_iff_log_lt (by decide) hx).mp (by norm_num; linarith)
  rcases lt_or_ge (Int.log 2 (m : ℚ)) 24 with hlt | hge
  · obtain ⟨n, hn⟩ : ∃ n : Nat, 23 - Int.log 2 (m : ℚ) = (n : Int) :=
      ⟨(23 - Int.log 2 (m : ℚ)).toNat, (Int.toNat_of_nonneg (by omega)).symm⟩
    refine round_binary32_exact (m : ℚ) hx (Int.log 2 (m : ℚ)) ((m * 2 ^ n : Nat) : Int) h1 h2 ?_
    rw [hn, zpow_natCast]
    push_cast
    ring
  · have h24 : Int.log 2 (m : ℚ) = 24 := by omega
    rw [h24] at h1
    have hm : (m : ℚ) = 16777216 := le_antisymm hle (by norm_num at h1; exact_mod_cast h1)
    rw [hm]
    exact round_binary32_exact 16777216 (by norm_num) 24 8388608 (by norm_num) (by norm_num)
      (by norm_num)

/-- The `float` quotient of line 91 lies in `[0, 1]` whenever the counter lies in
`[0, loop_rate_hz]`. -/
theorem binary32_quotient_unit (s : Int) (R : Nat) (h1 : 1 ≤ R) (hs0 : 0 ≤ s) (hsR : s ≤ R) :
    0 ≤ round_binary32 (round_binary32 (s : ℚ) / round_binary32 (R : ℚ)) ∧
    round_binary32 (round_binary32 (s : ℚ) / round_binary32 (R : ℚ)) ≤ 1 := by
  have hs : (0 : ℚ) ≤ (s : ℚ) := by exact_mod_cast hs0
  have hle : (s : ℚ) ≤ (R : ℚ) := by exact_mod_cast hsR
  have hR : (0 : ℚ) < (R : ℚ) := by exact_mod_cast h1
  have hfs := round_binary32_nonneg _ hs
  have hfR := round_binary32_pos_of_pos _ hR
  have hmono := round_binary32_mono _ _ hs hle
  have hq0 : 0 ≤ round_binary32 (s : ℚ) / round_binary32 (R : ℚ) := div_nonneg hfs hfR.le
  have hq1 : round_binary32 (s : ℚ) / round_binary32 (R : ℚ) ≤ 1 := (div_le_one hfR).mpr hmono
  refine ⟨round_binary32_nonneg _ hq0, ?_⟩
  have := round_binary32_mono _ _ hq0 hq1
  rwa [round_binary32_one] at this

/-- One tick leaves the slew counter in `[0, loop_rate_hz]`. -/
theorem update_heli_control_dynamics_slew (R : Nat) (slew : Int) (inp : DynamicsInputs) :
    0 ≤ (update_heli_control_dynamics R slew inp).hover_roll_trim_scalar_slew ∧
    (update_heli_control_dynamics R slew inp).hover_roll_trim_scalar_slew ≤ R := by
  simp only [update_heli_control_dynamics, constrain_int16]
  constructor <;> split_ifs <;> omega

theorem update_heli_control_dynamics_scalar (R : Nat) (slew : Int) (inp : DynamicsInputs) :
    (update_heli_control_dynamics R slew inp).hover_roll_trim_scalar =
      round_binary32
        (round_binary32
          (((update_heli_control_dynamics R slew inp).hover_roll_trim_scalar_slew : Int) : ℚ) /
          round_binary32 (R : ℚ)) := rfl

/-- C10 (hover trim clamp). For every loop rate `loop_rate_hz >= 1`, after any finite sequence
of ticks from slew counter 0 with arbitrary inputs, a further tick leaves the slew counter in
`[0, loop_rate_hz]` and passes the attitude controller a scalar, the `float` quotient of the
counter and the loop rate, in `[0, 1]`. -/
theorem hover_trim_clamp (R : Nat) (h1 : 1 ≤ R) (ins : List DynamicsInputs)
    (inp : DynamicsInputs) :
    0 ≤ (update_heli_control_dynamics R (run_heli_control_dynamics R 0 ins)
      inp).hover_roll_trim_scalar_slew ∧
    (update_heli_control_dynamics R (run_heli_control_dynamics R 0 ins)
      inp).hover_roll_trim_scalar_slew ≤ R ∧
    0 ≤ (update_heli_control_dynamics R (run_heli_control_dynamics R 0 ins)
      inp).hover_roll_trim_scalar ∧
    (update_heli_control_dynamics R (run_heli_control_dynamics R 0 ins)
      inp).hover_roll_trim_scalar ≤ 1 := by
  have hs := update_heli_control_dynamics_slew R (run_heli_control_dynamics R 0 ins) inp
  have hq := binary32_quotient_unit _ R h1 hs.1 hs.2
  rw [update_heli_control_dynamics_scalar]
  exact ⟨hs.1, hs.2, hq.1, hq.2⟩

theorem round_binary32_one_hundredth : round_binary32 (1 / 100) = 5368709 / 536870912 := by
  rw [round_binary32_of_exponent (1 / 100) (by norm_num) (-7) (by norm_num) (by norm_num)]
  rw [round_half_even_of_floor _ 10737418 (by norm_num) (by norm_num)]
  norm_num

/-- At 400 Hz the fourth airborne tick with rotor demand leaves the counter at 4 and passes the
binary32 number nearest to 4/400, `5368709 / 2^29`. -/
theorem hover_trim_fourth_tick :
    (update_heli_control_dynamics 400
      (run_heli_control_dynamics 400 0 [airborne_demand, airborne_demand, airborne_demand])
      airborne_demand).hover_roll_trim_scalar_slew = 4 ∧
    (update_heli_control_dynamics 400
      (run_heli_control_dynamics 400 0 [airborne_demand, airborne_demand, airborne_demand])
      airborne_demand).hover_roll_trim_scalar = 5368709 / 536870912 := by
  have hs : (update_heli_control_dynamics 400
      (run_heli_control_dynamics 400 0 [airborne_demand, airborne_demand, airborne_demand])
      airborne_demand).hover_roll_trim_scalar_slew = 4 := by decide
  refine ⟨hs, ?_⟩
  rw [update_heli_control_dynamics_scalar, hs]
  have h4 : round_binary32 (((4 : Int) : ℚ)) = 4 := by
    have := round_binary32_natCast 4 (by decide) (by decide)
    simpa using this
  have h400 : round_binary32 (((400 : Nat) : ℚ)) = 400 := by
    have := round_binary32_natCast 400 (by decide) (by decide)
    simpa using this
  rw [h4, h400]
  have : (4 : ℚ) / 400 = 1 / 100 := by norm_num
  rw [this, round_binary32_one_hundredth]

/-- Witness of C10: at 400 Hz, after three airborne ticks with rotor demand, a fourth one leaves
the counter in `[0, 400]` and passes a scalar in `[0, 1]`. -/
theorem hover_trim_clamp_witness :
    0 ≤ (update_heli_control_dynamics 400
      (run_heli_control_dynamics 400 0 [airborne_demand, airborne_demand, airborne_demand])
      airborne_demand).hover_roll_trim_scalar_slew ∧
    (update_heli_control_dynamics 400
      (run_heli_control_dynamics 400 0 [airborne_demand, airborne_demand, airborne_demand])
      airborne_demand).hover_roll_trim_scalar_slew ≤ (400 : Nat) ∧
    0 ≤ (update_heli_control_dynamics 400
      (run_heli_control_dynamics 400 0 [airborne_demand, airborne_demand, airborne_demand])
      airborne_demand).hover_roll_trim_scalar ∧
    (update_heli_control_dynamics 400
      (run_heli_control_dynamics 400 0 [airborne_demand, airborne_demand, airborne_demand])
      airborne_demand).hover_roll_trim_scalar ≤ 1 :=
  hover_trim_clamp 400 (by decide)
    [airborne_demand, airborne_demand, airborne_demand] airborne_demand

/-! ## Theorems: `heli_update_rotor_speed_targets` -/

/-- The number of bits of a natural number lying in `[2^(L-1), 2^L)` is `L`. -/
theorem size_eq_of_bounds (m L : Nat) (h1 : 2 ^ (L - 1) ≤ m) (h2 : m < 2 ^ L) (hL : 0 < L) :
    m.size = L := by
  have hle : m.size ≤ L := Nat.size_le.mpr h2
  have hlt : L - 1 < m.size := Nat.lt_size.mpr h1
  omega

/-- Below `2^33` the rounding never goes above `2^33`. -/
theorem round_significand_le_of_lt (m : Nat) (h : m < 8589934592) :
    round_significand m ≤ 8589934592 := by
  unfold round_significand
  by_cases h24 : m.size ≤ 24
  · simp only [h24, if_true]
    omega
  · simp only [h24, if_false]
    have hsize : m.size ≤ 33 := Nat.size_le.mpr (by norm_num; exact h)
    have hm : m < 2 ^ m.size := Nat.lt_size_self m
    have hsplit : 2 ^ m.size = 2 ^ 24 * 2 ^ (m.size - 24) := by
      rw [← pow_add]
      congr 1
      omega
    have hq : m / 2 ^ (m.size - 24) < 2 ^ 24 := by
      rw [Nat.div_lt_iff_lt_mul (by positivity)]
      rw [← hsplit]
      exact hm
    have hpow : 2 ^ 24 * 2 ^ (m.size - 24) ≤ 8589934592 := by
      rw [← hsplit]
      calc 2 ^ m.size ≤ 2 ^ 33 := Nat.pow_le_pow_right (by decide) hsize
        _ = 8589934592 := by norm_num
    have hup : (m / 2 ^ (m.size - 24) + 1) * 2 ^ (m.size - 24) ≤ 8589934592 :=
      le_trans (Nat.mul_le_mul_right _ hq) hpow
    have hdn : m / 2 ^ (m.size - 24) * 2 ^ (m.size - 24) ≤ 8589934592 :=
      le_trans (Nat.mul_le_mul_right _ (Nat.le_succ _)) hup
    split_ifs <;> assumption

/-- Just above `2^33`, by less than half a unit in the last place, the rounding gives `2^33`. -/
theorem round_significand_near_one (m : Nat) (h1 : 8589934592 ≤ m) (h2 : m ≤ 8589935103) :
    round_significand m = 8589934592 := by
  have hsize : m.size = 34 := size_eq_of_bounds m 34 (by norm_num; exact h1)
    (by norm_num; omega) (by decide)
  unfold round_significand
  simp only [hsize]
  norm_num
  have hq : m / 1024 = 8388608 := by omega
  have hr : m % 1024 < 512 := by omega
  simp [hq, hr]

/-- A reading in `[0, 1000]` is normalised into `[0, 1]`. -/
theorem control_in_to_throttle_unit (c : Int) (h0 : 0 ≤ c) (h1 : c ≤ 1000) :
    0 ≤ control_in_to_throttle c ∧ control_in_to_throttle c ≤ 1 := by
  have hneg : ¬ c < 0 := by omega
  have hm : c.natAbs * 8589935 ≤ 8589935000 := by omega
  have hr : round_significand (c.natAbs * 8589935) ≤ 8589934592 := by
    rcases Nat.lt_or_ge (c.natAbs * 8589935) 8589934592 with hlt | hge
    · exact round_significand_le_of_lt _ hlt
    · exact le_of_eq (round_significand_near_one _ hge (by omega))
  have hq : ((round_significand (c.natAbs * 8589935) : Nat) : ℚ) ≤ 8589934592 := by
    exact_mod_cast hr
  simp only [control_in_to_throttle, hneg, if_false]
  constructor
  · positivity
  · rw [div_le_one (by norm_num)]
    exact hq

theorem control_in_to_throttle_zero : control_in_to_throttle 0 = 0 := by
  have h : round_significand 0 = 0 := by simp [round_significand]
  simp [control_in_to_throttle, h]

theorem control_in_to_throttle_500 : control_in_to_throttle 500 = 1 / 2 := by
  have hsize : Nat.size 4294967500 = 33 :=
    size_eq_of_bounds _ 33 (by norm_num) (by norm_num) (by decide)
  have h : round_significand 4294967500 = 4294967296 := by
    unfold round_significand
    simp only [hsize]
    norm_num
  have hm : (500 : Int).natAbs * 8589935 = 4294967500 := by decide
  simp only [control_in_to_throttle, hm, h]
  norm_num

theorem FLOAT_0_01f_pos : 0 < FLOAT_0_01f := by
  norm_num [FLOAT_0_01f]

/-- C11 (twin-mode targets). In THROTTLE_CONTROL_TWIN, with `t1` the normalised CH_8 value and
`t2` the normalised CH_7 value: if `t1 > 0.01f` or `t2 > 0.01f` the interlock is set, the
primary target is `t1` and the secondary target is `t2`, each channel's own value whether or
not it is above the threshold, and the measured RPM is fed; otherwise the interlock is cleared,
both targets are 0 and no RPM is fed. -/
theorem twin_targets (st : RotorState) (inp : RotorInputs)
    (h : inp.throttle_control_mode = ThrottleControlMode.THROTTLE_CONTROL_TWIN) :
    (control_in_to_throttle inp.control_in_ch8 > FLOAT_0_01f ∨
        control_in_to_throttle inp.control_in_ch7 > FLOAT_0_01f →
      (heli_update_rotor_speed_targets st inp).state.motor_interlock_switch = true ∧
      (heli_update_rotor_speed_targets st inp).state.desired_rotor_speed =
        control_in_to_throttle inp.control_in_ch8 ∧
      (heli_update_rotor_speed_targets st inp).state.desired_rotor_speed_2 =
        control_in_to_throttle inp.control_in_ch7 ∧
      (heli_update_rotor_speed_targets st inp).desired_rotor_speed_calls =
        [control_in_to_throttle inp.control_in_ch8] ∧
      (heli_update_rotor_speed_targets st inp).desired_rotor_speed_2_calls =
        [control_in_to_throttle inp.control_in_ch7] ∧
      (heli_update_rotor_speed_targets st inp).rpm_calls = [inp.rpm]) ∧
    (¬ (control_in_to_throttle inp.control_in_ch8 > FLOAT_0_01f ∨
        control_in_to_throttle inp.control_in_ch7 > FLOAT_0_01f) →
      (heli_update_rotor_speed_targets st inp).state.motor_interlock_switch = false ∧
      (heli_update_rotor_speed_targets st inp).state.desired_rotor_speed = 0 ∧
      (heli_update_rotor_speed_targets st inp).state.desired_rotor_speed_2 = 0 ∧
      (heli_update_rotor_speed_targets st inp).desired_rotor_speed_calls = [0] ∧
      (heli_update_rotor_speed_targets st inp).desired_rotor_speed_2_calls = [0] ∧
      (heli_update_rotor_speed_targets st inp).rpm_calls = []) := by
  constructor
  · intro hc
    simp [heli_update_rotor_speed_targets, rotor_speed_switch, h, hc]
  · intro hc
    simp [heli_update_rotor_speed_targets, rotor_speed_switch, h, hc]

/-- Witness of C11: readings 0 on CH_8 and 500 on CH_7, that is `t1 = 0.0` and `t2 = 0.5`, give
interlock true, primary target 0.0 and secondary target 0.5. -/
theorem twin_targets_witness :
    (heli_update_rotor_speed_targets RotorState.init
      (rotor_tick ThrottleControlMode.THROTTLE_CONTROL_TWIN 0 500
        false)).state.motor_interlock_switch = true ∧
    (heli_update_rotor_speed_targets RotorState.init
      (rotor_tick ThrottleControlMode.THROTTLE_CONTROL_TWIN 0 500
        false)).state.desired_rotor_speed = 0 ∧
    (heli_update_rotor_speed_targets RotorState.init
      (rotor_tick ThrottleControlMode.THROTTLE_CONTROL_TWIN 0 500
        false)).state.desired_rotor_speed_2 = 1 / 2 := by
  have hc : control_in_to_throttle
        (rotor_tick ThrottleControlMode.THROTTLE_CONTROL_TWIN 0 500 false).control_in_ch8 >
        FLOAT_0_01f ∨
      control_in_to_throttle
        (rotor_tick ThrottleControlMode.THROTTLE_CONTROL_TWIN 0 500 false).control_in_ch7 >
        FLOAT_0_01f := by
    right
    show control_in_to_throttle 500 > FLOAT_0_01f
    rw [control_in_to_throttle_500]
    norm_num [FLOAT_0_01f]
  have h := (twin_targets RotorState.init
    (rotor_tick ThrottleControlMode.THROTTLE_CONTROL_TWIN 0 500 false) rfl).1 hc
  refine ⟨h.1, ?_, ?_⟩
  · rw [h.2.1]
    exact control_in_to_throttle_zero
  · rw [h.2.2.1]
    exact control_in_to_throttle_500

/-- C12 (single-mode targets). In THROTTLE_CONTROL_SINGLE, with `t` the normalised CH_8 value:
if `t > 0.01f` the interlock is set, the primary target is `t` and the measured RPM is fed;
otherwise (at the threshold itself, below it, negative) the interlock is cleared, the primary
target is 0 and no RPM is fed. In both cases the secondary target is not written. -/
theorem single_targets (st : RotorState) (inp : RotorInputs)
    (h : inp.throttle_control_mode = ThrottleControlMode.THROTTLE_CONTROL_SINGLE) :
    (control_in_to_throttle inp.control_in_ch8 > FLOAT_0_01f →
      (heli_update_rotor_speed_targets st inp).state.motor_interlock_switch = true ∧
      (heli_update_rotor_speed_targets st inp).state.desired_rotor_speed =
        control_in_to_throttle inp.control_in_ch8 ∧
      (heli_update_rotor_speed_targets st inp).desired_rotor_speed_calls =
        [control_in_to_throttle inp.control_in_ch8] ∧
      (heli_update_rotor_speed_targets st inp).rpm_calls = [inp.rpm]) ∧
    (¬ control_in_to_throttle inp.control_in_ch8 > FLOAT_0_01f →
      (heli_update_rotor_speed_targets st inp).state.motor_interlock_switch = false ∧
      (heli_update_rotor_speed_targets st inp).state.desired_rotor_speed = 0 ∧
      (heli_update_rotor_speed_targets st inp).desired_rotor_speed_calls = [0] ∧
      (heli_update_rotor_speed_targets st inp).rpm_calls = []) ∧
    (heli_update_rotor_speed_targets st inp).desired_rotor_speed_2_calls = [] ∧
    (heli_update_rotor_speed_targets st inp).state.desired_rotor_speed_2 =
      st.desired_rotor_speed_2 := by
  refine ⟨?_, ?_, ?_, ?_⟩
  · intro hc
    simp [heli_update_rotor_speed_targets, rotor_speed_switch, h, hc]
  · intro hc
    simp [heli_update_rotor_speed_targets, rotor_speed_switch, h, hc]
  · simp only [heli_update_rotor_speed_targets, rotor_speed_switch, h]
    split_ifs <;> rfl
  · simp only [heli_update_rotor_speed_targets, rotor_speed_switch, h]
    split_ifs <;> rfl

/-- Witness of C12: a reading of 0 on CH_8 clears the interlock, writes the primary target 0 and
feeds no RPM. -/
theorem single_targets_witness :
    (heli_update_rotor_speed_targets RotorState.init
      (rotor_tick ThrottleControlMode.THROTTLE_CONTROL_SINGLE 0 500
        false)).state.motor_interlock_switch = false ∧
    (heli_update_rotor_speed_targets RotorState.init
      (rotor_tick ThrottleControlMode.THROTTLE_CONTROL_SINGLE 0 500
        false)).state.desired_rotor_speed = 0 ∧
    (heli_update_rotor_speed_targets RotorState.init
      (rotor_tick ThrottleControlMode.THROTTLE_CONTROL_SINGLE 0 500
        false)).desired_rotor_speed_calls = [0] ∧
    (heli_update_rotor_speed_targets RotorState.init
      (rotor_tick ThrottleControlMode.THROTTLE_CONTROL_SINGLE 0 500
        false)).rpm_calls = [] := by
  have hc : ¬ control_in_to_throttle
      (rotor_tick ThrottleControlMode.THROTTLE_CONTROL_SINGLE 0 500 false).control_in_ch8 >
      FLOAT_0_01f := by
    show ¬ control_in_to_throttle 0 > FLOAT_0_01f
    rw [control_in_to_throttle_zero]
    norm_num [FLOAT_0_01f]
  exact (single_targets RotorState.init
    (rotor_tick ThrottleControlMode.THROTTLE_CONTROL_SINGLE 0 500 false) rfl).2.1 hc

/-- When both raw readings lie in `[0, 1000]`, every rotor speed target written by the tick,
primary or secondary, in any throttle mode, is at least 0 and at most 1: the range of the
targets is the range the readings are kept in, by whoever supplies them. -/
theorem rotor_targets_unit_range (st : RotorState) (inp : RotorInputs)
    (h8 : 0 ≤ inp.control_in_ch8 ∧ inp.control_in_ch8 ≤ 1000)
    (h7 : 0 ≤ inp.control_in_ch7 ∧ inp.control_in_ch7 ≤ 1000) :
    ∀ x ∈ (heli_update_rotor_speed_targets st inp).desired_rotor_speed_calls ++
        (heli_update_rotor_speed_targets st inp).desired_rotor_speed_2_calls,
      0 ≤ x ∧ x ≤ 1 := by
  have u8 := control_in_to_throttle_unit _ h8.1 h8.2
  have u7 := control_in_to_throttle_unit _ h7.1 h7.2
  have z : (0 : ℚ) ≤ 0 ∧ (0 : ℚ) ≤ 1 := ⟨le_refl _, zero_le_one⟩
  intro x hx
  rcases List.mem_append.mp hx with hx | hx
  · simp only [heli_update_rotor_speed_targets, rotor_speed_switch] at hx
    split at hx
    · split_ifs at hx <;> rw [List.mem_singleton] at hx <;> rw [hx] <;> assumption
    · split_ifs at hx <;> rw [List.mem_singleton] at hx <;> rw [hx] <;> assumption
    · exact absurd hx (List.not_mem_nil x)
  · simp only [heli_update_rotor_speed_targets, rotor_speed_switch] at hx
    split at hx
    · split_ifs at hx <;> exact absurd hx (List.not_mem_nil x)
    · split_ifs at hx <;> rw [List.mem_singleton] at hx <;> rw [hx] <;> assumption
    · exact absurd hx (List.not_mem_nil x)

/-- C14 (unsupported throttle mode). For a throttle mode that is neither single nor twin, the
tick writes no target, feeds no RPM and leaves both targets and the interlock flag as they
were; the run-up edge detection is still made and `rotor_runup_complete_last` takes the value
the motors report. -/
theorem unsupported_mode (st : RotorState) (inp : RotorInputs) (n : Nat)
    (h : inp.throttle_control_mode = ThrottleControlMode.OTHER n) :
    (heli_update_rotor_speed_targets st inp).state.desired_rotor_speed =
      st.desired_rotor_speed ∧
    (heli_update_rotor_speed_targets st inp).state.desired_rotor_speed_2 =
      st.desired_rotor_speed_2 ∧
    (heli_update_rotor_speed_targets st inp).state.motor_interlock_switch =
      st.motor_interlock_switch ∧
    (heli_update_rotor_speed_targets st inp).desired_rotor_speed_calls = [] ∧
    (heli_update_rotor_speed_targets st inp).desired_rotor_speed_2_calls = [] ∧
    (heli_update_rotor_speed_targets st inp).rpm_calls = [] ∧
    (heli_update_rotor_speed_targets st inp).events =
      edge_events st.rotor_runup_complete_last [inp.rotor_runup_complete] ∧
    (heli_update_rotor_speed_targets st inp).state.rotor_runup_complete_last =
      inp.rotor_runup_complete := by
  refine ⟨?_, ?_, ?_, ?_, ?_, ?_, ?_, ?_⟩ <;>
    simp [heli_update_rotor_speed_targets, rotor_speed_switch, h]
  cases st.rotor_runup_complete_last <;> cases inp.rotor_runup_complete <;>
    simp [runup_events, edge_events]

/-- Witness of C14: with targets 0.7 and 0.6 and the interlock set, a tick in an unsupported
mode with full readings on both channels keeps all three, and logs the run-up edge. -/
theorem unsupported_mode_witness :
    (heli_update_rotor_speed_targets ⟨true, 7 / 10, 6 / 10, false⟩
      (rotor_tick (ThrottleControlMode.OTHER 9) 1000 1000 true)).state.desired_rotor_speed =
      7 / 10 ∧
    (heli_update_rotor_speed_targets ⟨true, 7 / 10, 6 / 10, false⟩
      (rotor_tick (ThrottleControlMode.OTHER 9) 1000 1000 true)).state.desired_rotor_speed_2 =
      6 / 10 ∧
    (heli_update_rotor_speed_targets ⟨true, 7 / 10, 6 / 10, false⟩
      (rotor_tick (ThrottleControlMode.OTHER 9) 1000 1000 true)).state.motor_interlock_switch =
      true ∧
    (heli_update_rotor_speed_targets ⟨true, 7 / 10, 6 / 10, false⟩
      (rotor_tick (ThrottleControlMode.OTHER 9) 1000 1000 true)).events =
      [LogEvent.DATA_ROTOR_RUNUP_COMPLETE] := by
  have h := unsupported_mode ⟨true, 7 / 10, 6 / 10, false⟩
    (rotor_tick (ThrottleControlMode.OTHER 9) 1000 1000 true) 9 rfl
  refine ⟨h.1, h.2.1, h.2.2.1, ?_⟩
  rw [h.2.2.2.2.2.2.1]
  simp [edge_events, rotor_tick]

/-- The events of one tick are those of the spec for the stored and the reported flag. -/
theorem runup_events_eq_edge_events (last current : Bool) :
    runup_events last current = edge_events last [current] := by
  cases last <;> cases current <;> simp [runup_events, edge_events]

theorem edge_events_cons (last current : Bool) (rest : List Bool) :
    edge_events last (current :: rest) =
      edge_events last [current] ++ edge_events current rest := by
  simp [edge_events]

/-- The log after a run is the log before it followed by the events of the spec. -/
theorem run_rotor_speed_targets_log (ins : List RotorInputs) :
    ∀ (st : RotorState) (log : List LogEvent),
      (ins.foldl
        (fun acc inp =>
          ((heli_update_rotor_speed_targets acc.1 inp).state,
            acc.2 ++ (heli_update_rotor_speed_targets acc.1 inp).events))
        (st, log)).2 =
      log ++ edge_events st.rotor_runup_complete_last
        (ins.map (fun i => i.rotor_runup_complete)) := by
  induction ins with
  | nil => intro st log; simp [edge_events]
  | cons inp rest ih =>
    intro st log
    rw [List.foldl_cons, ih, List.map_cons, edge_events_cons, ← List.append_assoc]
    have hev : (heli_update_rotor_speed_targets st inp).events =
        edge_events st.rotor_runup_complete_last [inp.rotor_runup_complete] := by
      simp [heli_update_rotor_speed_targets, runup_events_eq_edge_events]
    have hlast : (heli_update_rotor_speed_targets st inp).state.rotor_runup_complete_last =
        inp.rotor_runup_complete := by
      simp [heli_update_rotor_speed_targets]
    rw [hev, hlast]

/-- C15 (run-up event edges). For every sequence of ticks, whatever the throttle mode and the
channel readings, started with `rotor_runup_complete_last = false`, the event log is the list
of the spec for the sequence of run-up flags: in order, one ROTOR_RUNUP_COMPLETE per change from
false to true and one ROTOR_SPEED_BELOW_CRITICAL per change from true to false. Every tick logs
at most one event, and none when the flag equals the stored one. -/
theorem runup_event_edges (st : RotorState) (ins : List RotorInputs) (inp : RotorInputs) :
    (run_rotor_speed_targets { st with rotor_runup_complete_last := false } ins).2 =
      edge_events false (ins.map (fun i => i.rotor_runup_complete)) ∧
    (heli_update_rotor_speed_targets st inp).events.length ≤ 1 ∧
    (inp.rotor_runup_complete ≠ st.rotor_runup_complete_last ∨
      (heli_update_rotor_speed_targets st inp).events = []) := by
  refine ⟨?_, ?_, ?_⟩
  · unfold run_rotor_speed_targets
    rw [run_rotor_speed_targets_log]
    simp
  · simp only [heli_update_rotor_speed_targets, runup_events]
    split_ifs <;> simp
  · simp only [heli_update_rotor_speed_targets, runup_events]
    cases st.rotor_runup_complete_last <;> cases inp.rotor_runup_complete <;> simp

/-- Witness of C15: the flags false, true, true, false, over ticks of mixed throttle modes, log
exactly run-up complete, then below critical. -/
theorem runup_event_edges_witness :
    (run_rotor_speed_targets { RotorState.init with rotor_runup_complete_last := false }
      [rotor_tick ThrottleControlMode.THROTTLE_CONTROL_SINGLE 0 0 false,
       rotor_tick ThrottleControlMode.THROTTLE_CONTROL_SINGLE 800 0 true,
       rotor_tick ThrottleControlMode.THROTTLE_CONTROL_TWIN 800 800 true,
       rotor_tick (ThrottleControlMode.OTHER 7) 0 0 false]).2 =
      [LogEvent.DATA_ROTOR_RUNUP_COMPLETE, LogEvent.DATA_ROTOR_SPEED_BELOW_CRITICAL] := by
  have h := (runup_event_edges RotorState.init
    [rotor_tick ThrottleControlMode.THROTTLE_CONTROL_SINGLE 0 0 false,
     rotor_tick ThrottleControlMode.THROTTLE_CONTROL_SINGLE 800 0 true,
     rotor_tick ThrottleControlMode.THROTTLE_CONTROL_TWIN 800 800 true,
     rotor_tick (ThrottleControlMode.OTHER 7) 0 0 false]
    (rotor_tick ThrottleControlMode.THROTTLE_CONTROL_SINGLE 0 0 false)).1
  rw [h]
  simp [edge_events, rotor_tick]

/-- C19 (interlock agrees with demand). After a tick in single or twin mode, the interlock flag
is false exactly when every rotor speed target written on the tick is 0, and true exactly when
some written target is not 0. -/
theorem interlock_agrees_with_demand (st : RotorState) (inp : RotorInputs)
    (h : inp.throttle_control_mode = ThrottleControlMode.THROTTLE_CONTROL_SINGLE ∨
      inp.throttle_control_mode = ThrottleControlMode.THROTTLE_CONTROL_TWIN) :
    ((heli_update_rotor_speed_targets st inp).state.motor_interlock_switch = false ↔
      ∀ x ∈ (heli_update_rotor_speed_targets st inp).desired_rotor_speed_calls ++
          (heli_update_rotor_speed_targets st inp).desired_rotor_speed_2_calls, x = 0) ∧
    ((heli_update_rotor_speed_targets st inp).state.motor_interlock_switch = true ↔
      ∃ x ∈ (heli_update_rotor_speed_targets st inp).desired_rotor_speed_calls ++
          (heli_update_rotor_speed_targets st inp).desired_rotor_speed_2_calls, x ≠ 0) := by
  have hp := FLOAT_0_01f_pos
  rcases h with h | h
  · by_cases hc : control_in_to_throttle inp.control_in_ch8 > FLOAT_0_01f
    · have hne : control_in_to_throttle inp.control_in_ch8 ≠ 0 := ne_of_gt (lt_trans hp hc)
      simp [heli_update_rotor_speed_targets, rotor_speed_switch, h, hc, hne]
    · simp [heli_update_rotor_speed_targets, rotor_speed_switch, h, hc]
  · by_cases hc : control_in_to_throttle inp.control_in_ch8 > FLOAT_0_01f ∨
        control_in_to_throttle inp.control_in_ch7 > FLOAT_0_01f
    · have hne : ¬ (control_in_to_throttle inp.control_in_ch8 = 0 ∧
          control_in_to_throttle inp.control_in_ch7 = 0) := by
        rintro ⟨h8, h7⟩
        rcases hc with hc | hc
        · rw [h8] at hc; exact absurd hc (not_lt.mpr hp.le)
        · rw [h7] at hc; exact absurd hc (not_lt.mpr hp.le)
      simp only [heli_update_rotor_speed_targets, rotor_speed_switch, h, if_pos hc]
      simp
      constructor
      · intro h8 h7; exact hne ⟨h8, h7⟩
      · by_contra hcon
        push_neg at hcon
        exact hne hcon
    · simp only [heli_update_rotor_speed_targets, rotor_speed_switch, h, if_neg hc]
      simp

/-! ## Theorems: temporal behaviour of `check_dynamic_flight` -/

/-- An idle tick with the flag clear changes nothing. -/
theorem idle_tick_clear (c : Int) (inp : FlightInputs) (h : idle inp) :
    check_dynamic_flight ⟨false, c⟩ inp = ⟨false, c⟩ := by
  simp [check_dynamic_flight, dynamic_flight_debounce, h.1, h.2]

/-- Ninety-nine Stabilize ticks at 6.0 m/s, then one tick at rest: the counter is still 99. -/
theorem interrupted_run :
    run_check_dynamic_flight HeliState.init
      (List.replicate 99 stabilize_6ms ++ [hover_still]) = ⟨false, 99⟩ := by
  have hall : ∀ inp ∈ List.replicate 99 stabilize_6ms, cruising inp := by
    intro inp h
    rw [List.eq_of_mem_replicate h]
    exact stabilize_6ms_cruising
  have h99 := cruising_run_below (List.replicate 99 stabilize_6ms) hall 0 (le_refl _)
    (by simp)
  simp only [List.length_replicate, Nat.cast_ofNat, zero_add] at h99
  rw [run_check_dynamic_flight_append]
  show check_dynamic_flight
    (run_check_dynamic_flight ⟨false, 0⟩ (List.replicate 99 stabilize_6ms)) hover_still = _
  rw [h99]
  exact idle_tick_clear 99 hover_still hover_still_idle

theorem moving_ticks_fold_state (ins : List FlightInputs) :
    ∀ acc : HeliState × Nat,
      (ins.foldl moving_ticks_step acc).1 = run_check_dynamic_flight acc.1 ins := by
  induction ins with
  | nil => intro acc; simp [run_check_dynamic_flight]
  | cons inp rest ih =>
    intro acc
    rw [List.foldl_cons, ih, run_check_dynamic_flight_cons]
    rfl

theorem moving_ticks_since_clear_append (ins : List FlightInputs) (inp : FlightInputs) :
    moving_ticks_since_clear (ins ++ [inp]) =
      if dynamic_flight_reset inp then 0
      else if (run_check_dynamic_flight HeliState.init ins).dynamic_flight then 0
      else if dynamic_flight_moving inp then moving_ticks_since_clear ins + 1
      else moving_ticks_since_clear ins := by
  have hst := moving_ticks_fold_state ins (HeliState.init, 0)
  simp only at hst
  simp only [moving_ticks_since_clear, List.foldl_append, List.foldl_cons, List.foldl_nil,
    moving_ticks_step, hst]

/-- While the flag is clear, the counter is the number of moving ticks since the flag was last
set, the last hard reset or start-up, and it is below 100. -/
theorem counter_eq_moving_ticks (ins : List FlightInputs) :
    (run_check_dynamic_flight HeliState.init ins).dynamic_flight = false →
      (run_check_dynamic_flight HeliState.init ins).heli_dynamic_flight_counter =
        (moving_ticks_since_clear ins : Int) ∧
      (run_check_dynamic_flight HeliState.init ins).heli_dynamic_flight_counter ≤ 99 := by
  induction ins using List.reverseRecOn with
  | nil =>
    intro _
    simp [run_check_dynamic_flight, HeliState.init, moving_ticks_since_clear]
  | append_singleton rest inp ih =>
    have hb := run_check_dynamic_flight_bounds rest
    rw [run_check_dynamic_flight_append, moving_ticks_since_clear_append]
    generalize run_check_dynamic_flight HeliState.init rest = s at ih hb ⊢
    generalize moving_ticks_since_clear rest = n at ih ⊢
    obtain ⟨df, c⟩ := s
    simp only at ih hb
    have hup : wrap_int8 (c + 1) = c + 1 := wrap_int8_of_range _ (by omega) (by omega)
    simp only [check_dynamic_flight, dynamic_flight_debounce, hup]
    cases df <;> split_ifs <;> simp_all <;> omega

/-- C16 as amended (two-second requirement). A tick taken with `dynamic_flight` false, in a
state reached from the initial one, changes it to true exactly when the tick is not a hard
reset, `moving` is true on it, and `moving` was true on exactly 99 earlier ticks since the
latest of start-up, the last hard reset and the last tick that began with `dynamic_flight`
set. Those 99 ticks need not be consecutive: a tick that is not moving leaves the count as it
is. -/
theorem dynamic_flight_needs_100_moving_ticks (ins : List FlightInputs) (inp : FlightInputs)
    (h1 : (run_check_dynamic_flight HeliState.init ins).dynamic_flight = false) :
    (check_dynamic_flight (run_check_dynamic_flight HeliState.init ins)
      inp).dynamic_flight = true ↔
    (dynamic_flight_reset inp = false ∧ dynamic_flight_moving inp = true ∧
      moving_ticks_since_clear ins = 99) := by
  have hb := run_check_dynamic_flight_bounds ins
  have hc := counter_eq_moving_ticks ins h1
  generalize run_check_dynamic_flight HeliState.init ins = s at h1 hb hc ⊢
  generalize moving_ticks_since_clear ins = n at hc ⊢
  obtain ⟨df, c⟩ := s
  simp only at h1 hb hc
  subst h1
  have hup : wrap_int8 (c + 1) = c + 1 := wrap_int8_of_range _ (by omega) (by omega)
  simp only [check_dynamic_flight, dynamic_flight_debounce, hup]
  by_cases hr : dynamic_flight_reset inp = true
  · simp [hr]
  · by_cases hm : dynamic_flight_moving inp = true
    · by_cases h100 : c + 1 ≥ 100
      · have hn : n = 99 := by omega
        simp [hr, hm, h100, hn]
      · have hn : n ≠ 99 := by omega
        simp [hr, hm, h100, hn]
    · simp [hr, hm]

/-- Witness of C16 as amended: after 99 moving ticks and one tick at rest, the next moving tick
sets the flag, and exactly 99 moving ticks are counted before it. -/
theorem dynamic_flight_needs_100_moving_ticks_witness :
    dynamic_flight_reset stabilize_6ms = false ∧ dynamic_flight_moving stabilize_6ms = true ∧
    moving_ticks_since_clear (List.replicate 99 stabilize_6ms ++ [hover_still]) = 99 :=
  (dynamic_flight_needs_100_moving_ticks (List.replicate 99 stabilize_6ms ++ [hover_still])
    stabilize_6ms (by rw [interrupted_run])).mp
    (by rw [interrupted_run, cruising_tick_reach _ stabilize_6ms_cruising])

/-- C16, counterexample to the claim as stated. After 99 moving ticks and one tick at rest the
flag is clear; the next moving tick sets it, although `moving` was false on the tick
immediately before. -/
theorem dynamic_flight_after_interrupted_movement :
    (run_check_dynamic_flight HeliState.init
      (List.replicate 99 stabilize_6ms ++ [hover_still])).dynamic_flight = false ∧
    (check_dynamic_flight
      (run_check_dynamic_flight HeliState.init
        (List.replicate 99 stabilize_6ms ++ [hover_still])) stabilize_6ms).dynamic_flight
      = true ∧
    dynamic_flight_reset hover_still = false ∧
    dynamic_flight_moving hover_still = false := by
  refine ⟨by rw [interrupted_run], ?_, hover_still_idle.1, hover_still_idle.2⟩
  rw [interrupted_run, cruising_tick_reach _ stabilize_6ms_cruising]

/-! ## Theorems: the ramp of `update_heli_control_dynamics` -/

theorem landed_tick_ramp_down : ramp_down landed_tick := Or.inl rfl

/-- One tick from a clear flag and a counter below 99: the flag stays clear and the counter
goes up by at most one. -/
theorem clear_tick_below (c : Int) (inp : FlightInputs) (h0 : 0 ≤ c) (h1 : c + 1 < 100) :
    (check_dynamic_flight ⟨false, c⟩ inp).dynamic_flight = false ∧
    0 ≤ (check_dynamic_flight ⟨false, c⟩ inp).heli_dynamic_flight_counter ∧
    (check_dynamic_flight ⟨false, c⟩ inp).heli_dynamic_flight_counter ≤ c + 1 := by
  have hup : wrap_int8 (c + 1) = c + 1 := wrap_int8_of_range _ (by omega) (by omega)
  have hlt : ¬ c + 1 ≥ 100 := by omega
  simp only [check_dynamic_flight, dynamic_flight_debounce, hup]
  split_ifs <;> simp_all <;> omega

/-- A run from a clear flag too short to bring the counter to 100 leaves the flag clear. -/
theorem clear_run_below (rest : List FlightInputs) :
    ∀ c : Int, 0 ≤ c → c + rest.length < 100 →
      (run_check_dynamic_flight ⟨false, c⟩ rest).dynamic_flight = false := by
  induction rest with
  | nil => intro c _ _; simp [run_check_dynamic_flight]
  | cons inp rest ih =>
    intro c h0 h1
    have hlen : ((inp :: rest).length : Int) = (rest.length : Int) + 1 := by simp
    have hstep := clear_tick_below c inp h0 (by omega)
    rw [run_check_dynamic_flight_cons]
    generalize check_dynamic_flight ⟨false, c⟩ inp = s at hstep
    obtain ⟨df, c1⟩ := s
    simp only at hstep
    obtain ⟨hdf, hc0, hc1⟩ := hstep
    subst hdf
    exact ih c1 hc0 (by omega)

/-- From a reachable state, a tick that clears the flag leaves the counter at 0. -/
theorem clearing_tick_zero (ins : List FlightInputs) (inp : FlightInputs)
    (h1 : (run_check_dynamic_flight HeliState.init ins).dynamic_flight = true)
    (h2 : (check_dynamic_flight (run_check_dynamic_flight HeliState.init ins)
      inp).dynamic_flight = false) :
    check_dynamic_flight (run_check_dynamic_flight HeliState.init ins) inp = ⟨false, 0⟩ := by
  have hb := run_check_dynamic_flight_bounds ins
  generalize run_check_dynamic_flight HeliState.init ins = s at h1 h2 hb ⊢
  obtain ⟨df, c⟩ := s
  simp only at h1 hb
  subst h1
  simp only [check_dynamic_flight, dynamic_flight_debounce] at h2 ⊢
  split_ifs at h2 ⊢ <;> simp_all
  omega

/-- C18 (no chatter). If a tick taken in a state reached from the initial one changes
`dynamic_flight` from true to false, by hard reset or by debounce expiry, then the flag is
still false after any further ticks up to 99 of them, whatever their inputs. -/
theorem no_chatter (ins : List FlightInputs) (inp : FlightInputs) (rest : List FlightInputs)
    (h1 : (run_check_dynamic_flight HeliState.init ins).dynamic_flight = true)
    (h2 : (check_dynamic_flight (run_check_dynamic_flight HeliState.init ins)
      inp).dynamic_flight = false)
    (hlen : rest.length ≤ 99) :
    (run_check_dynamic_flight
      (check_dynamic_flight (run_check_dynamic_flight HeliState.init ins) inp)
      rest).dynamic_flight = false := by
  rw [clearing_tick_zero ins inp h1 h2]
  exact clear_run_below rest 0 (le_refl _) (by omega)

/-- One hundred Stabilize ticks at 6.0 m/s from the initial state set the flag. -/
theorem stabilize_run_100 :
    run_check_dynamic_flight HeliState.init (List.replicate 100 stabilize_6ms) = ⟨true, 100⟩ := by
  have hall : ∀ inp ∈ List.replicate 99 stabilize_6ms, cruising inp := by
    intro inp h
    rw [List.eq_of_mem_replicate h]
    exact stabilize_6ms_cruising
  have h99 := cruising_run_below (List.replicate 99 stabilize_6ms) hall 0 (le_refl _)
    (by simp)
  simp only [List.length_replicate, Nat.cast_ofNat, zero_add] at h99
  rw [List.replicate_succ' 99 stabilize_6ms, run_check_dynamic_flight_append]
  show check_dynamic_flight
    (run_check_dynamic_flight ⟨false, 0⟩ (List.replicate 99 stabilize_6ms)) stabilize_6ms = _
  rw [h99]
  exact cruising_tick_reach _ stabilize_6ms_cruising

/-- Witness of C18: the flag is set by 100 moving ticks and cleared by a Land tick; 99 further
moving ticks leave it clear. -/
theorem no_chatter_witness :
    (run_check_dynamic_flight
      (check_dynamic_flight
        (run_check_dynamic_flight HeliState.init (List.replicate 100 stabilize_6ms)) land_6ms)
      (List.replicate 99 stabilize_6ms)).dynamic_flight = false :=
  no_chatter (List.replicate 100 stabilize_6ms) land_6ms (List.replicate 99 stabilize_6ms)
    (by rw [stabilize_run_100])
    (by rw [stabilize_run_100]; decide)
    (by simp)

/-- Witness of C19: in twin mode with readings 0 and 500 the interlock is set and the secondary
target written is not 0. -/
theorem interlock_agrees_with_demand_witness :
    ((heli_update_rotor_speed_targets RotorState.init
        (rotor_tick ThrottleControlMode.THROTTLE_CONTROL_TWIN 0 500
          false)).state.motor_interlock_switch = false ↔
      ∀ x ∈ (heli_update_rotor_speed_targets RotorState.init
            (rotor_tick ThrottleControlMode.THROTTLE_CONTROL_TWIN 0 500
              false)).desired_rotor_speed_calls ++
          (heli_update_rotor_speed_targets RotorState.init
            (rotor_tick ThrottleControlMode.THROTTLE_CONTROL_TWIN 0 500
              false)).desired_rotor_speed_2_calls, x = 0) ∧
    ((heli_update_rotor_speed_targets RotorState.init
        (rotor_tick ThrottleControlMode.THROTTLE_CONTROL_TWIN 0 500
          false)).state.motor_interlock_switch = true ↔
      ∃ x ∈ (heli_update_rotor_speed_targets RotorState.init
            (rotor_tick ThrottleControlMode.THROTTLE_CONTROL_TWIN 0 500
              false)).desired_rotor_speed_calls ++
          (heli_update_rotor_speed_targets RotorState.init
            (rotor_tick ThrottleControlMode.THROTTLE_CONTROL_TWIN 0 500
              false)).desired_rotor_speed_2_calls, x ≠ 0) :=
  interlock_agrees_with_demand RotorState.init
    (rotor_tick ThrottleControlMode.THROTTLE_CONTROL_TWIN 0 500 false) (Or.inr rfl)

/-- C20 (estimator to selector). When `check_dynamic_flight` runs on a tick whose spool state
is not THROTTLE_UNLIMITED and `heli_update_landing_swash` then runs on the resulting flag, in
the same mode, the selector makes the single call `set_collective_for_landing(true)` (Limited)
in every mode other than Acro, Stabilize, Drift and Sport, whatever the prior estimator state,
the sensor inputs, `land_complete` and `auto_armed`. -/
theorem estimator_to_selector (s : HeliState) (inp : FlightInputs)
    (land_complete auto_armed : Bool)
    (hspool : inp.spool_state ≠ SpoolState.THROTTLE_UNLIMITED)
    (hmode : inp.control_mode ≠ ModeNumber.ACRO ∧ inp.control_mode ≠ ModeNumber.STABILIZE ∧
      inp.control_mode ≠ ModeNumber.DRIFT ∧ inp.control_mode ≠ ModeNumber.SPORT) :
    heli_update_landing_swash
      ⟨inp.control_mode, inp.rtl_state, inp.auto_mode,
        (check_dynamic_flight s inp).dynamic_flight, land_complete, auto_armed⟩ = [true] ∧
    (heli_update_landing_swash
      ⟨inp.control_mode, inp.rtl_state, inp.auto_mode,
        (check_dynamic_flight s inp).dynamic_flight, land_complete, auto_armed⟩).map
      SwashRange.ofLanding = [SwashRange.Limited] := by
  have hr : dynamic_flight_reset inp = true := by
    simp [dynamic_flight_reset, hspool]
  have hdf : (check_dynamic_flight s inp).dynamic_flight = false := by
    simp [check_dynamic_flight, hr]
  have hcalls : heli_update_landing_swash
      ⟨inp.control_mode, inp.rtl_state, inp.auto_mode,
        (check_dynamic_flight s inp).dynamic_flight, land_complete, auto_armed⟩ = [true] := by
    rw [hdf]
    obtain ⟨h1, h2, h3, h4⟩ := hmode
    unfold heli_update_landing_swash
    cases hm : inp.control_mode <;> simp_all
  rw [hcalls]
  exact ⟨rfl, rfl⟩

/-- Witness of C20: from `(true, 100)`, not landed and auto-armed, a tick with the rotor
spooling down makes the selector choose Limited. -/
theorem estimator_to_selector_witness :
    heli_update_landing_swash
      ⟨spooling_down_fast.control_mode, spooling_down_fast.rtl_state,
        spooling_down_fast.auto_mode,
        (check_dynamic_flight ⟨true, 100⟩ spooling_down_fast).dynamic_flight, false, true⟩
      = [true] ∧
    (heli_update_landing_swash
      ⟨spooling_down_fast.control_mode, spooling_down_fast.rtl_state,
        spooling_down_fast.auto_mode,
        (check_dynamic_flight ⟨true, 100⟩ spooling_down_fast).dynamic_flight, false, true⟩).map
      SwashRange.ofLanding = [SwashRange.Limited] :=
  estimator_to_selector ⟨true, 100⟩ spooling_down_fast false true (by decide)
    ⟨by decide, by decide, by decide, by decide⟩

end HeliPilot
